import Mathlib

/-!
Shallow embedding of the zod-collection-ui affordance pipeline
(src/inference.ts, src/collection.ts, src/store.ts, src/codegen.ts,
src/generators.ts) and proofs about it.

Schema nodes are modelled after the introspected Zod v4 runtime shape the
source reads (`_zod.def` with `type`, `innerType`, `checks`, `format`,
`entries`, `values`, plus the instance-level `minValue`/`maxValue` and the
`.meta()` registry). Wrapper nodes (`optional`/`nullable`/`default`) always
carry an inner node, as they do in every schema Zod can construct; a node
whose `_zod.def` is unreadable is `noDef`, and a def with a missing or
unrecognized `type` tag is a `base` node whose tag yields "unknown".
-/

namespace ZodUI

/-- One entry of a def's `checks` array: a validation kind plus its numeric
payload (as read for min/max bounds). -/
structure ZodCheck where
  kind : String
  value : Int
deriving DecidableEq

/-- The readable part of a non-wrapper `_zod.def`, together with the
instance-level properties the introspectors read from the schema object. -/
structure BaseDef where
  ty : Option String := none
  checks : Option (List ZodCheck) := none
  format : Option String := none
  entries : Option (List (String × String)) := none
  values : Option (List String) := none
  hasDefaultValue : Bool := false
  minValue : Option Int := none
  maxValue : Option Int := none
deriving DecidableEq

/-- A Zod schema node: either its `_zod.def` is unreadable, or it is a
wrapper (`optional`/`nullable`/`default`) around an inner node, or it is a
terminal node described by a `BaseDef`. -/
inductive ZodNode where
  | noDef : ZodNode
  | optional (inner : ZodNode) : ZodNode
  | nullable (inner : ZodNode) : ZodNode
  | withDefault (inner : ZodNode) : ZodNode
  | base (d : BaseDef) : ZodNode
deriving DecidableEq

/-- `sortable` values: `boolean | SortDirection`. -/
inductive SortableVal where
  | ofBool (b : Bool)
  | asc
  | desc
  | both
  | dirNone
deriving DecidableEq

/-- `filterable` values: `boolean | FilterType`. -/
inductive FilterVal where
  | ofBool (b : Bool)
  | exact
  | search
  | select
  | multiSelect
  | range
  | contains
  | boolFilter
  | fuzzy
deriving DecidableEq

/-- `aggregatable` values: `boolean | AggregationFn[]`. -/
inductive AggVal where
  | ofBool (b : Bool)
  | fns (l : List String)
deriving DecidableEq

/-- `pinned` values: `'left' | 'right' | false`. -/
inductive PinnedVal where
  | left
  | right
  | ofBool (b : Bool)
deriving DecidableEq

/-- The `FieldAffordance` record from src/types.ts: every property is
optional (`none` models an absent / `undefined` property). -/
structure FieldAffordance where
  sortable : Option SortableVal := none
  filterable : Option FilterVal := none
  searchable : Option Bool := none
  groupable : Option Bool := none
  aggregatable : Option AggVal := none
  readable : Option Bool := none
  editable : Option Bool := none
  inlineEditable : Option Bool := none
  requiredOnCreate : Option Bool := none
  requiredOnUpdate : Option Bool := none
  immutableAfterCreate : Option Bool := none
  visible : Option Bool := none
  hidden : Option Bool := none
  detailOnly : Option Bool := none
  summaryField : Option Bool := none
  columnWidth : Option Int := none
  minWidth : Option Int := none
  maxWidth : Option Int := none
  resizable : Option Bool := none
  pinned : Option PinnedVal := none
  order : Option Int := none
  title : Option String := none
  description : Option String := none
  displayFormat : Option String := none
  badge : Option (List (String × String)) := none
  copyable : Option Bool := none
  truncate : Option Int := none
  tooltip : Option Bool := none
  editWidget : Option String := none
  editPlaceholder : Option String := none
  editHelp : Option String := none
deriving DecidableEq

/-- A schema as handed to the inference entry point: the node tree plus the
`.meta()` affordance annotations (already in extracted form; `none` models a
schema with no metadata). -/
structure ZodSchema where
  node : ZodNode
  meta : Option FieldAffordance := none
deriving DecidableEq

/-- `getZodBaseType`: underlying type name, unwrapping optional/nullable/
default wrappers; `unknown` when the def is unreadable or has no type tag. -/
def getZodBaseType : ZodNode → String
  | .noDef => "unknown"
  | .optional inner => getZodBaseType inner
  | .nullable inner => getZodBaseType inner
  | .withDefault inner => getZodBaseType inner
  | .base d => d.ty.getD "unknown"

/-- `unwrapZodSchema`: the inner node, unwrapping optionals/nullables/
defaults. -/
def unwrapZodSchema : ZodNode → ZodNode
  | .optional inner => unwrapZodSchema inner
  | .nullable inner => unwrapZodSchema inner
  | .withDefault inner => unwrapZodSchema inner
  | .noDef => .noDef
  | .base d => .base d

/-- A node is terminal (wrapper-free) when it is not an
optional/nullable/default wrapper. -/
def isTerminalNode : ZodNode → Bool
  | .optional _ => false
  | .nullable _ => false
  | .withDefault _ => false
  | _ => true

/-- `getEnumValues`: ordered enum members of an (unwrapped) enum node,
`none` otherwise; Zod v4 `entries` take precedence over legacy `values`. -/
def getEnumValues (schema : ZodNode) : Option (List String) :=
  match unwrapZodSchema schema with
  | .base d =>
    if d.ty = some "enum" then
      match d.entries with
      | some es => some (es.map Prod.snd)
      | none => d.values
    else none
  | _ => none

/-- `getZodMeta`: the Zod v4 metadata attached to the schema, if any. -/
def getZodMeta (schema : ZodSchema) : Option FieldAffordance :=
  schema.meta

/-- The instance-level `minValue` property read by `getNumericBounds`. -/
def instMinValue : ZodNode → Option Int
  | .base d => d.minValue
  | _ => none

/-- The instance-level `maxValue` property read by `getNumericBounds`. -/
def instMaxValue : ZodNode → Option Int
  | .base d => d.maxValue
  | _ => none

/-- The def's `checks` array, when readable. -/
def defChecks : ZodNode → Option (List ZodCheck)
  | .base d => d.checks
  | _ => none

/-- The `{min?, max?}` result record of `getNumericBounds`. -/
structure Bounds where
  min : Option Int := none
  max : Option Int := none
deriving DecidableEq

/-- `Number.MAX_SAFE_INTEGER`. -/
def maxSafeInteger : Int := 9007199254740991

/-- The `min` assignment of the Zod v3 fallback loop: a `min` check fills
the bound only when it is still undefined. -/
def bcsMin (r : Bounds) (c : ZodCheck) : Bounds :=
  if c.kind = "min" ∧ r.min = none then { r with min := some c.value } else r

/-- The `max` assignment of the Zod v3 fallback loop: a `max` check fills
the bound only when it is still undefined. -/
def bcsMax (r : Bounds) (c : ZodCheck) : Bounds :=
  if c.kind = "max" ∧ r.max = none then { r with max := some c.value } else r

/-- One iteration of the Zod v3 fallback loop in `getNumericBounds`: the
`min` assignment followed by the `max` assignment. -/
def boundsCheckStep (r : Bounds) (c : ZodCheck) : Bounds :=
  bcsMax (bcsMin r c) c

/-- The instance-level `minValue` assignment of `getNumericBounds` (set
only when the value is a number other than `-MAX_SAFE_INTEGER`). -/
def applyInstMin (o : Option Int) (result : Bounds) : Bounds :=
  match o with
  | some v => if v = -maxSafeInteger then result else { result with min := some v }
  | none => result

/-- The instance-level `maxValue` assignment of `getNumericBounds` (set
only when the value is a number other than `MAX_SAFE_INTEGER`). -/
def applyInstMax (o : Option Int) (result : Bounds) : Bounds :=
  match o with
  | some v => if v = maxSafeInteger then result else { result with max := some v }
  | none => result

/-- The Zod v3 fallback loop of `getNumericBounds` over the def's checks
array, when one is readable. -/
def applyChecks (o : Option (List ZodCheck)) (result : Bounds) : Bounds :=
  match o with
  | some checks => checks.foldl boundsCheckStep result
  | none => result

/-- `getNumericBounds`: instance-level bounds (filtering out the
±MAX_SAFE_INTEGER sentinels), then the v3-style checks as a fallback. -/
def getNumericBounds (schema : ZodNode) : Bounds :=
  let unwrapped := unwrapZodSchema schema
  applyChecks (defChecks unwrapped)
    (applyInstMax (instMaxValue unwrapped)
      (applyInstMin (instMinValue unwrapped) {}))

/-! Type-based default affordance records (layer 1). -/

/-- Defaults for string fields. -/
def STRING_FIELD_DEFAULTS : FieldAffordance :=
  { sortable := some .both, filterable := some .search, searchable := some true,
    groupable := some false, editable := some true, visible := some true }

/-- Defaults for numeric fields. -/
def NUMBER_FIELD_DEFAULTS : FieldAffordance :=
  { sortable := some .both, filterable := some .range, searchable := some false,
    groupable := some false, editable := some true, visible := some true,
    aggregatable := some (.fns ["sum", "avg", "min", "max"]) }

/-- Defaults for boolean fields. -/
def BOOLEAN_FIELD_DEFAULTS : FieldAffordance :=
  { sortable := some .both, filterable := some .boolFilter, searchable := some false,
    groupable := some true, editable := some true, visible := some true }

/-- Defaults for enum fields. -/
def ENUM_FIELD_DEFAULTS : FieldAffordance :=
  { sortable := some .both, filterable := some .select, searchable := some false,
    groupable := some true, editable := some true, visible := some true }

/-- Defaults for date fields. -/
def DATE_FIELD_DEFAULTS : FieldAffordance :=
  { sortable := some .both, filterable := some .range, searchable := some false,
    groupable := some false, editable := some true, visible := some true }

/-- Defaults for array-like fields. -/
def ARRAY_FIELD_DEFAULTS : FieldAffordance :=
  { sortable := some (.ofBool false), filterable := some .contains, searchable := some false,
    groupable := some false, editable := some true, visible := some true }

/-- Defaults for object-like fields. -/
def OBJECT_FIELD_DEFAULTS : FieldAffordance :=
  { sortable := some (.ofBool false), filterable := some (.ofBool false),
    searchable := some false, groupable := some false, editable := some true,
    visible := some true, detailOnly := some true }

/-- Defaults for unrecognized fields: the maximally conservative record. -/
def UNKNOWN_FIELD_DEFAULTS : FieldAffordance :=
  { sortable := some (.ofBool false), filterable := some (.ofBool false),
    searchable := some false, groupable := some false, editable := some false,
    visible := some true }

/-- The type tags with a dedicated default-affordance record — exactly the
cases of `getTypeDefaults` before its fall-through default. -/
def isRecognizedTypeTag (t : String) : Bool :=
  t == "string" || t == "number" || t == "int" || t == "float" || t == "bigint" ||
  t == "boolean" || t == "enum" || t == "nativeEnum" || t == "date" ||
  t == "array" || t == "set" || t == "tuple" || t == "object" || t == "record" || t == "map"

/-- `getTypeDefaults`: map a Zod base type tag to default affordances. -/
def getTypeDefaults (zodType : String) : FieldAffordance :=
  if zodType = "string" then STRING_FIELD_DEFAULTS
  else if zodType = "number" ∨ zodType = "int" ∨ zodType = "float" ∨ zodType = "bigint" then
    NUMBER_FIELD_DEFAULTS
  else if zodType = "boolean" then BOOLEAN_FIELD_DEFAULTS
  else if zodType = "enum" ∨ zodType = "nativeEnum" then ENUM_FIELD_DEFAULTS
  else if zodType = "date" then DATE_FIELD_DEFAULTS
  else if zodType = "array" ∨ zodType = "set" ∨ zodType = "tuple" then ARRAY_FIELD_DEFAULTS
  else if zodType = "object" ∨ zodType = "record" ∨ zodType = "map" then OBJECT_FIELD_DEFAULTS
  else UNKNOWN_FIELD_DEFAULTS

/-! Validation-based refinements (layer 2). -/

/-- The `email`-check branch of the string-check loop. -/
def vcsEmail (refined : FieldAffordance) (c : ZodCheck) : FieldAffordance :=
  if c.kind = "email" then
    { refined with editWidget := some "email", filterable := some .search }
  else refined

/-- The `url`/`uri`-check branch of the string-check loop. -/
def vcsUrl (refined : FieldAffordance) (c : ZodCheck) : FieldAffordance :=
  if c.kind = "url" ∨ c.kind = "uri" then
    { refined with editWidget := some "url", searchable := some false,
                   filterable := some .exact }
  else refined

/-- The `uuid`/`ulid`/`cuid`-check branch of the string-check loop. -/
def vcsUuid (refined : FieldAffordance) (c : ZodCheck) : FieldAffordance :=
  if c.kind = "uuid" ∨ c.kind = "ulid" ∨ c.kind = "cuid" then
    { refined with editable := some false, filterable := some .exact,
                   searchable := some false }
  else refined

/-- One iteration of the string-check loop in `refineByValidations`: the
three kind branches in source order. -/
def validationCheckStep (refined : FieldAffordance) (c : ZodCheck) : FieldAffordance :=
  vcsUuid (vcsUrl (vcsEmail refined c) c) c

/-- The string-check loop over the def's checks array, when readable. -/
def refineStringChecks (d : BaseDef) (refined : FieldAffordance) : FieldAffordance :=
  match d.checks with
  | some cs => cs.foldl validationCheckStep refined
  | none => refined

/-- The `format === 'email'` refinement. -/
def refineFormatEmail (d : BaseDef) (refined : FieldAffordance) : FieldAffordance :=
  if d.format = some "email" then { refined with editWidget := some "email" } else refined

/-- The `format === 'uri' | 'url'` refinement. -/
def refineFormatUrl (d : BaseDef) (refined : FieldAffordance) : FieldAffordance :=
  if d.format = some "uri" ∨ d.format = some "url" then
    { refined with editWidget := some "url", searchable := some false }
  else refined

/-- The `format === 'uuid'` refinement. -/
def refineFormatUuid (d : BaseDef) (refined : FieldAffordance) : FieldAffordance :=
  if d.format = some "uuid" then
    { refined with editable := some false, filterable := some .exact,
                   searchable := some false }
  else refined

/-- The string branch of `refineByValidations`: check loop, then the
format refinements, in source order. -/
def refineStringBranch (d : BaseDef) (refined : FieldAffordance) : FieldAffordance :=
  if d.ty = some "string" then
    refineFormatUuid d (refineFormatUrl d (refineFormatEmail d (refineStringChecks d refined)))
  else refined

/-- The boolean-with-default refinement of `refineByValidations`. -/
def refineBooleanDefault (d : BaseDef) (refined : FieldAffordance) : FieldAffordance :=
  if d.ty = some "boolean" ∧ d.hasDefaultValue then
    { refined with editWidget := some "switch" }
  else refined

/-- `refineByValidations`: refine the type defaults from the unwrapped def's
checks/format flags (string formats) and a boolean default value. -/
def refineByValidations (schema : ZodSchema) (defaults : FieldAffordance) : FieldAffordance :=
  match unwrapZodSchema schema.node with
  | .base d => refineBooleanDefault d (refineStringBranch d defaults)
  | _ => defaults

/-! Name-based heuristics (layer 3). Each `/^(...)$/i` full-match regex is
embedded as membership of the lowercased key in the finite set of strings
the alternation denotes (with each `_?` expanded both ways); the one
case-sensitive suffix regex is embedded as the five suffix tests. String
lowering and suffix testing are spelled out on the character list so that
they evaluate inside the kernel. -/

/-- ASCII-lowercase a string (JS `toLowerCase` on the ASCII field names the
patterns concern). -/
def strLower (s : String) : String :=
  String.mk (s.data.map Char.toLower)

/-- Whether `s` ends with `suffix` (JS `RegExp` `$`-anchored suffix test). -/
def strEndsWith (s suffix : String) : Bool :=
  suffix.data.isSuffixOf s.data

/-- `ID_PATTERNS = /^(id|_id|uuid|uid|key|pk)$/i`. -/
def testIdPatterns (key : String) : Bool :=
  strLower key == "id" || strLower key == "_id" || strLower key == "uuid" ||
  strLower key == "uid" || strLower key == "key" || strLower key == "pk"

/-- `ID_SUFFIX_PATTERNS = /(_id|Id|ID|_key|Key)$/` (case sensitive). -/
def testIdSuffixPatterns (key : String) : Bool :=
  strEndsWith key "_id" || strEndsWith key "Id" || strEndsWith key "ID" ||
  strEndsWith key "_key" || strEndsWith key "Key"

/-- `CREATED_PATTERNS = /^(created_?at|creation_?date|date_?created|ctime)$/i`. -/
def testCreatedPatterns (key : String) : Bool :=
  strLower key == "createdat" || strLower key == "created_at" ||
  strLower key == "creationdate" || strLower key == "creation_date" ||
  strLower key == "datecreated" || strLower key == "date_created" ||
  strLower key == "ctime"

/-- `UPDATED_PATTERNS = /^(updated_?at|modified_?at|last_?modified|mtime|changed_?at)$/i`. -/
def testUpdatedPatterns (key : String) : Bool :=
  strLower key == "updatedat" || strLower key == "updated_at" ||
  strLower key == "modifiedat" || strLower key == "modified_at" ||
  strLower key == "lastmodified" || strLower key == "last_modified" ||
  strLower key == "mtime" ||
  strLower key == "changedat" || strLower key == "changed_at"

/-- `DELETED_PATTERNS = /^(deleted_?at|removed_?at)$/i`. -/
def testDeletedPatterns (key : String) : Bool :=
  strLower key == "deletedat" || strLower key == "deleted_at" ||
  strLower key == "removedat" || strLower key == "removed_at"

/-- `SECRET_PATTERNS = /^(password|secret|token|api_?key|access_?key|private_?key|hash|salt)$/i`. -/
def testSecretPatterns (key : String) : Bool :=
  strLower key == "password" || strLower key == "secret" || strLower key == "token" ||
  strLower key == "apikey" || strLower key == "api_key" ||
  strLower key == "accesskey" || strLower key == "access_key" ||
  strLower key == "privatekey" || strLower key == "private_key" ||
  strLower key == "hash" || strLower key == "salt"

/-- `EMAIL_PATTERNS = /^(email|e_?mail)$/i`. -/
def testEmailPatterns (key : String) : Bool :=
  strLower key == "email" || strLower key == "e_mail"

/-- `NAME_PATTERNS = /^(name|title|label|display_?name|full_?name|username)$/i`. -/
def testNamePatterns (key : String) : Bool :=
  strLower key == "name" || strLower key == "title" || strLower key == "label" ||
  strLower key == "displayname" || strLower key == "display_name" ||
  strLower key == "fullname" || strLower key == "full_name" ||
  strLower key == "username"

/-- `DESCRIPTION_PATTERNS = /^(description|summary|body|content|text|bio|about|notes)$/i`. -/
def testDescriptionPatterns (key : String) : Bool :=
  strLower key == "description" || strLower key == "summary" || strLower key == "body" ||
  strLower key == "content" || strLower key == "text" || strLower key == "bio" ||
  strLower key == "about" || strLower key == "notes"

/-- `IMAGE_PATTERNS = /^(image|photo|avatar|thumbnail|picture|icon|logo)(_?url)?$/i`. -/
def testImagePatterns (key : String) : Bool :=
  strLower key == "image" || strLower key == "imageurl" || strLower key == "image_url" ||
  strLower key == "photo" || strLower key == "photourl" || strLower key == "photo_url" ||
  strLower key == "avatar" || strLower key == "avatarurl" || strLower key == "avatar_url" ||
  strLower key == "thumbnail" || strLower key == "thumbnailurl" || strLower key == "thumbnail_url" ||
  strLower key == "picture" || strLower key == "pictureurl" || strLower key == "picture_url" ||
  strLower key == "icon" || strLower key == "iconurl" || strLower key == "icon_url" ||
  strLower key == "logo" || strLower key == "logourl" || strLower key == "logo_url"

/-- `STATUS_PATTERNS = /^(status|state|phase|stage)$/i`. -/
def testStatusPatterns (key : String) : Bool :=
  strLower key == "status" || strLower key == "state" ||
  strLower key == "phase" || strLower key == "stage"

/-- The identifier-name patch (hides only the field named exactly `id`). -/
def patchId (key : String) (refined : FieldAffordance) : FieldAffordance :=
  if testIdPatterns key || testIdSuffixPatterns key then
    { refined with editable := some false,
                   visible := if key = "id" then some false else refined.visible,
                   filterable := some .exact, searchable := some false }
  else refined

/-- The created-at-name patch. -/
def patchCreated (key : String) (refined : FieldAffordance) : FieldAffordance :=
  if testCreatedPatterns key then
    { refined with editable := some false, sortable := some .both,
                   filterable := some .range }
  else refined

/-- The updated-at-name patch. -/
def patchUpdated (key : String) (refined : FieldAffordance) : FieldAffordance :=
  if testUpdatedPatterns key then
    { refined with editable := some false, visible := some false,
                   sortable := some .both }
  else refined

/-- The deleted-at-name patch. -/
def patchDeleted (key : String) (refined : FieldAffordance) : FieldAffordance :=
  if testDeletedPatterns key then
    { refined with editable := some false, visible := some false }
  else refined

/-- The secret-name patch. -/
def patchSecret (key : String) (refined : FieldAffordance) : FieldAffordance :=
  if testSecretPatterns key then
    { refined with readable := some false, searchable := some false,
                   sortable := some (.ofBool false), filterable := some (.ofBool false),
                   visible := some false }
  else refined

/-- The email-name patch. -/
def patchEmail (key : String) (refined : FieldAffordance) : FieldAffordance :=
  if testEmailPatterns key then
    { refined with editWidget := some (refined.editWidget.getD "email"),
                   filterable := some .search, searchable := some true }
  else refined

/-- The name/title-name patch. -/
def patchName (key : String) (refined : FieldAffordance) : FieldAffordance :=
  if testNamePatterns key then
    { refined with searchable := some true, summaryField := some true,
                   sortable := some .both }
  else refined

/-- The description-name patch. -/
def patchDescription (key : String) (refined : FieldAffordance) : FieldAffordance :=
  if testDescriptionPatterns key then
    { refined with editWidget := some (refined.editWidget.getD "textarea"),
                   truncate := some (refined.truncate.getD 100), tooltip := some true,
                   sortable := some (.ofBool false) }
  else refined

/-- The image-name patch. -/
def patchImage (key : String) (refined : FieldAffordance) : FieldAffordance :=
  if testImagePatterns key then
    { refined with sortable := some (.ofBool false), filterable := some (.ofBool false),
                   searchable := some false }
  else refined

/-- The status-name patch. -/
def patchStatus (key : String) (refined : FieldAffordance) : FieldAffordance :=
  if testStatusPatterns key then
    { refined with groupable := some true, filterable := some .select }
  else refined

/-- `refineByFieldName`: apply the name-heuristic patches in their fixed
source order (identifier, created, updated, deleted, secret, email,
name/title, description, image, status); every matching patch applies. -/
def refineByFieldName (key : String) (defaults : FieldAffordance) : FieldAffordance :=
  patchStatus key (patchImage key (patchDescription key (patchName key (patchEmail key
    (patchSecret key (patchDeleted key (patchUpdated key (patchCreated key
      (patchId key defaults)))))))))

/-! `humanizeFieldName` — the three regex replacements plus trim, on the
character list of the key. -/

/-- `.replace(/([a-z])([A-Z])/g, '$1 $2')`: insert a space at every
lowercase-to-uppercase transition. -/
def insertCamelSpaces : List Char → List Char
  | a :: b :: rest =>
    if a.isLower && b.isUpper then a :: ' ' :: insertCamelSpaces (b :: rest)
    else a :: insertCamelSpaces (b :: rest)
  | l => l

/-- Separator characters collapsed by `.replace(/[_-]+/g, ' ')`. -/
def isSepChar (c : Char) : Bool := c = '_' || c = '-'

/-- `.replace(/[_-]+/g, ' ')`: each run of `_`/`-` becomes one space; the
flag records whether the previous character belonged to such a run. -/
def collapseSepAux : Bool → List Char → List Char
  | _, [] => []
  | prevSep, c :: rest =>
    if isSepChar c then
      if prevSep then collapseSepAux true rest
      else ' ' :: collapseSepAux true rest
    else c :: collapseSepAux false rest

/-- A `\w` word character, as in the `/\b\w/g` capitalization regex. -/
def isWordChar (c : Char) : Bool := c.isAlpha || c.isDigit || c = '_'

/-- `.replace(/\b\w/g, c => c.toUpperCase())`: uppercase every word
character that sits at a word boundary; the flag records whether the
previous character was a word character. -/
def capWordsAux : Bool → List Char → List Char
  | _, [] => []
  | prevWord, c :: rest =>
    (if isWordChar c && !prevWord then c.toUpper else c) :: capWordsAux (isWordChar c) rest

/-- `.trim()`: strip leading and trailing whitespace. -/
def trimChars (l : List Char) : List Char :=
  ((l.dropWhile Char.isWhitespace).reverse.dropWhile Char.isWhitespace).reverse

/-- `humanizeFieldName`: camelCase/snake_case key to a human-readable
title-cased label. -/
def humanizeFieldName (key : String) : String :=
  String.mk (trimChars (capWordsAux false (collapseSepAux false (insertCamelSpaces key.data))))

/-! Layer 4: `.meta()` annotations. The metadata is modelled in already
extracted form (`extractAffordancesFromMeta` output), so this layer is the
spread `{ ...affordances, ...extracted }`. -/

/-- Shallow merge of affordance records: every property present in the
patch overrides the base (`{ ...base, ...patch }`). -/
def mergeFieldAffordance (base patch : FieldAffordance) : FieldAffordance :=
  { sortable := patch.sortable <|> base.sortable,
    filterable := patch.filterable <|> base.filterable,
    searchable := patch.searchable <|> base.searchable,
    groupable := patch.groupable <|> base.groupable,
    aggregatable := patch.aggregatable <|> base.aggregatable,
    readable := patch.readable <|> base.readable,
    editable := patch.editable <|> base.editable,
    inlineEditable := patch.inlineEditable <|> base.inlineEditable,
    requiredOnCreate := patch.requiredOnCreate <|> base.requiredOnCreate,
    requiredOnUpdate := patch.requiredOnUpdate <|> base.requiredOnUpdate,
    immutableAfterCreate := patch.immutableAfterCreate <|> base.immutableAfterCreate,
    visible := patch.visible <|> base.visible,
    hidden := patch.hidden <|> base.hidden,
    detailOnly := patch.detailOnly <|> base.detailOnly,
    summaryField := patch.summaryField <|> base.summaryField,
    columnWidth := patch.columnWidth <|> base.columnWidth,
    minWidth := patch.minWidth <|> base.minWidth,
    maxWidth := patch.maxWidth <|> base.maxWidth,
    resizable := patch.resizable <|> base.resizable,
    pinned := patch.pinned <|> base.pinned,
    order := patch.order <|> base.order,
    title := patch.title <|> base.title,
    description := patch.description <|> base.description,
    displayFormat := patch.displayFormat <|> base.displayFormat,
    badge := patch.badge <|> base.badge,
    copyable := patch.copyable <|> base.copyable,
    truncate := patch.truncate <|> base.truncate,
    tooltip := patch.tooltip <|> base.tooltip,
    editWidget := patch.editWidget <|> base.editWidget,
    editPlaceholder := patch.editPlaceholder <|> base.editPlaceholder,
    editHelp := patch.editHelp <|> base.editHelp }

/-- The final step of `inferFieldAffordances`: synthesize a title from the
key when none was set by any layer. -/
def fillTitle (key : String) (a : FieldAffordance) : FieldAffordance :=
  if a.title.isNone then { a with title := some (humanizeFieldName key) } else a

/-- Layer 4 of `inferFieldAffordances`: spread the extracted `.meta()`
affordances over the result of the first three layers, when metadata is
present. -/
def applyMetaLayer (affordances : FieldAffordance) (m : Option FieldAffordance) :
    FieldAffordance :=
  match m with
  | some meta => mergeFieldAffordance affordances meta
  | none => affordances

/-- `inferFieldAffordances`: the four inference layers — type defaults,
validation refinements, name heuristics, `.meta()` overrides — followed by
title synthesis. -/
def inferFieldAffordances (key : String) (schema : ZodSchema) : FieldAffordance :=
  fillTitle key
    (applyMetaLayer
      (refineByFieldName key
        (refineByValidations schema (getTypeDefaults (getZodBaseType schema.node))))
      (getZodMeta schema))

/-! Collection-level affordances (src/types.ts + src/collection.ts). -/

/-- `PaginationConfig`, all properties optional. -/
structure PaginationConfig where
  defaultPageSize : Option Int := none
  pageSizeOptions : Option (List Int) := none
  style : Option String := none
  serverSide : Option Bool := none
deriving DecidableEq

/-- `SearchConfig`, all properties optional. -/
structure SearchConfig where
  debounce : Option Int := none
  minChars : Option Int := none
  highlight : Option Bool := none
  placeholder : Option String := none
deriving DecidableEq

/-- A `pagination` value: `boolean | PaginationConfig`. -/
inductive PaginationSetting where
  | asBool (b : Bool)
  | asConfig (c : PaginationConfig)
deriving DecidableEq

/-- A `search` value: `boolean | SearchConfig`. -/
inductive SearchSetting where
  | asBool (b : Bool)
  | asConfig (c : SearchConfig)
deriving DecidableEq

/-- A `defaultSort` value: `{field, direction}`. -/
structure SortSpec where
  field : String
  direction : String
deriving DecidableEq

/-- The `CollectionAffordances` record: the properties the default record
populates plus `defaultSort` (`bulkEdit` and `selectable` are kept in their
simple forms, which are the only forms the defaults and the claims use). -/
structure CollectionAffordances where
  create : Option Bool := none
  read : Option Bool := none
  update : Option Bool := none
  delete : Option Bool := none
  bulkDelete : Option Bool := none
  bulkEdit : Option Bool := none
  search : Option SearchSetting := none
  pagination : Option PaginationSetting := none
  defaultSort : Option SortSpec := none
  multiSort : Option Bool := none
  filterPanel : Option Bool := none
  selectable : Option String := none
  columnVisibility : Option Bool := none
  columnOrder : Option Bool := none
  columnResize : Option Bool := none
  refresh : Option Bool := none
  defaultView : Option String := none
  views : Option (List String) := none
deriving DecidableEq

/-- `DEFAULT_COLLECTION_AFFORDANCES` from src/collection.ts. -/
def DEFAULT_COLLECTION_AFFORDANCES : CollectionAffordances :=
  { create := some true, read := some true, update := some true, delete := some true,
    bulkDelete := some false, bulkEdit := some false,
    search := some (.asBool true),
    pagination := some (.asConfig
      { defaultPageSize := some 25, pageSizeOptions := some [10, 25, 50, 100],
        style := some "pages", serverSide := some false }),
    multiSort := some true, filterPanel := some true, selectable := some "multi",
    columnVisibility := some true, columnOrder := some true, columnResize := some true,
    refresh := some true, defaultView := some "table", views := some ["table"] }

/-- `DEFAULT_PAGINATION` from src/collection.ts. -/
def DEFAULT_PAGINATION : PaginationConfig :=
  { defaultPageSize := some 25, pageSizeOptions := some [10, 25, 50, 100],
    style := some "pages", serverSide := some false }

/-- `DEFAULT_SEARCH` from src/collection.ts. -/
def DEFAULT_SEARCH : SearchConfig :=
  { debounce := some 300, minChars := some 1, highlight := some false,
    placeholder := some "Search..." }

/-- Shallow merge `{ ...a, ...b }` of collection affordances. -/
def mergeCollectionAffordances (a b : CollectionAffordances) : CollectionAffordances :=
  { create := b.create <|> a.create, read := b.read <|> a.read,
    update := b.update <|> a.update, delete := b.delete <|> a.delete,
    bulkDelete := b.bulkDelete <|> a.bulkDelete, bulkEdit := b.bulkEdit <|> a.bulkEdit,
    search := b.search <|> a.search, pagination := b.pagination <|> a.pagination,
    defaultSort := b.defaultSort <|> a.defaultSort, multiSort := b.multiSort <|> a.multiSort,
    filterPanel := b.filterPanel <|> a.filterPanel, selectable := b.selectable <|> a.selectable,
    columnVisibility := b.columnVisibility <|> a.columnVisibility,
    columnOrder := b.columnOrder <|> a.columnOrder,
    columnResize := b.columnResize <|> a.columnResize, refresh := b.refresh <|> a.refresh,
    defaultView := b.defaultView <|> a.defaultView, views := b.views <|> a.views }

/-- Shallow merge `{ ...DEFAULT_PAGINATION, ...partial }`. -/
def mergePaginationConfig (a b : PaginationConfig) : PaginationConfig :=
  { defaultPageSize := b.defaultPageSize <|> a.defaultPageSize,
    pageSizeOptions := b.pageSizeOptions <|> a.pageSizeOptions,
    style := b.style <|> a.style, serverSide := b.serverSide <|> a.serverSide }

/-- Shallow merge `{ ...DEFAULT_SEARCH, ...partial }`. -/
def mergeSearchConfig (a b : SearchConfig) : SearchConfig :=
  { debounce := b.debounce <|> a.debounce, minChars := b.minChars <|> a.minChars,
    highlight := b.highlight <|> a.highlight, placeholder := b.placeholder <|> a.placeholder }

/-- The `// Normalize pagination` step of `resolveCollectionAffordances`:
`true` expands to the full default, a partial object merges over the full
default; `false` is falsy and passes through unchanged. -/
def normalizePagination (merged : CollectionAffordances) : CollectionAffordances :=
  match merged.pagination with
  | some (.asBool true) => { merged with pagination := some (.asConfig DEFAULT_PAGINATION) }
  | some (.asConfig c) =>
    { merged with pagination := some (.asConfig (mergePaginationConfig DEFAULT_PAGINATION c)) }
  | _ => merged

/-- The `// Normalize search` step of `resolveCollectionAffordances`. -/
def normalizeSearch (merged : CollectionAffordances) : CollectionAffordances :=
  match merged.search with
  | some (.asBool true) => { merged with search := some (.asConfig DEFAULT_SEARCH) }
  | some (.asConfig c) =>
    { merged with search := some (.asConfig (mergeSearchConfig DEFAULT_SEARCH c)) }
  | _ => merged

/-- `resolveCollectionAffordances`: merge defaults with caller overrides
(`{ ...DEFAULT_COLLECTION_AFFORDANCES, ...explicit }`), then normalize the
`pagination` and `search` shorthands. -/
def resolveCollectionAffordances (explicit : Option CollectionAffordances) :
    CollectionAffordances :=
  let merged :=
    match explicit with
    | some e => mergeCollectionAffordances DEFAULT_COLLECTION_AFFORDANCES e
    | none => DEFAULT_COLLECTION_AFFORDANCES
  normalizeSearch (normalizePagination merged)

/-- A resolved per-field affordance record: the merged `FieldAffordance`
(its `title` always set) plus the computed `zodType` tag. -/
structure ResolvedFA where
  aff : FieldAffordance
  zodType : String
deriving DecidableEq

/-- One field of `resolveAllFieldAffordances`: inference merged with the
explicit override for the key (`explicit?.[key] ?? {}`), with `title` and
`zodType` ensured. -/
def resolveFieldEntry (explicit : Option (List (String × FieldAffordance)))
    (kv : String × ZodSchema) : String × ResolvedFA :=
  let key := kv.1
  let inferred := inferFieldAffordances key kv.2
  let explicitOverrides := (((explicit.getD []).find? (fun p => p.1 = key)).map Prod.snd).getD {}
  let merged := mergeFieldAffordance inferred explicitOverrides
  (key, { aff := { merged with title := some (merged.title.getD (humanizeFieldName key)) },
          zodType := getZodBaseType kv.2.node })

/-- `resolveAllFieldAffordances`: resolve every schema field in declaration
order. -/
def resolveAllFieldAffordances (shape : List (String × ZodSchema))
    (explicit : Option (List (String × FieldAffordance))) : List (String × ResolvedFA) :=
  shape.map (resolveFieldEntry explicit)

/-- `detectIdField`: prefer exact id-like names, then the first field with
an id-like ending, then the first declared field. -/
def detectIdField (shape : List (String × ZodSchema)) : String :=
  let keys := shape.map Prod.fst
  if keys.contains "id" then "id"
  else if keys.contains "_id" then "_id"
  else if keys.contains "uuid" then "uuid"
  else if keys.contains "key" then "key"
  else
    match keys.find? (fun k => strEndsWith k "id" || strEndsWith k "Id" || strEndsWith k "_id") with
    | some k => k
    | none => keys.headD "id"

/-- `detectLabelField`: a `summaryField`-flagged field, else the first
present common label name, else the first still-editable string field, else
the first declared field. -/
def detectLabelField (fieldAffordances : List (String × ResolvedFA)) : String :=
  match fieldAffordances.find? (fun p => p.2.aff.summaryField = some true) with
  | some p => p.1
  | none =>
    let keys := fieldAffordances.map Prod.fst
    match ["name", "title", "label", "displayName", "display_name", "username"].find?
        (fun n => keys.contains n) with
    | some n => n
    | none =>
      match fieldAffordances.find?
          (fun p => p.2.zodType = "string" ∧ p.2.aff.editable ≠ some false) with
      | some p => p.1
      | none => keys.headD ""

/-- An `OperationDefinition` (confirmation and shortcut kept abstract as
the strings/flags the codegen copies through). -/
structure OperationDefinition where
  name : String
  label : String
  scope : String
  icon : Option String := none
  variant : Option String := none
  confirm : Option Bool := none
  keyboardShortcut : Option String := none
deriving DecidableEq

/-- The `CollectionConfig` override object. -/
structure CollectionConfig where
  affordances : Option CollectionAffordances := none
  fields : Option (List (String × FieldAffordance)) := none
  operations : Option (List OperationDefinition) := none
  idField : Option String := none
  labelField : Option String := none
deriving DecidableEq

/-- The resolved `CollectionDefinition` aggregate. -/
structure CollectionDefinition where
  shape : List (String × ZodSchema)
  affordances : CollectionAffordances
  fieldAffordances : List (String × ResolvedFA)
  operations : List OperationDefinition
  idField : String
  labelField : String
deriving DecidableEq

/-- `defineCollection`: resolve collection affordances, field affordances,
identity fields and operations from a schema shape plus optional config. -/
def defineCollection (shape : List (String × ZodSchema)) (config : Option CollectionConfig) :
    CollectionDefinition :=
  let affordances := resolveCollectionAffordances (config.bind (·.affordances))
  let fieldAffordances := resolveAllFieldAffordances shape (config.bind (·.fields))
  let idField := (config.bind (·.idField)).getD (detectIdField shape)
  let labelField := (config.bind (·.labelField)).getD (detectLabelField fieldAffordances)
  let operations := (config.bind (·.operations)).getD []
  { shape := shape, affordances := affordances, fieldAffordances := fieldAffordances,
    operations := operations, idField := idField, labelField := labelField }

/-- `getFilterableFields`: the fields whose `filterable` is not `false`. -/
def CollectionDefinition.getFilterableFields (c : CollectionDefinition) :
    List (String × ResolvedFA) :=
  c.fieldAffordances.filter (fun p => p.2.aff.filterable ≠ some (.ofBool false))

/-! Filter configuration generator (src/generators.ts). -/

/-- The string name of a `FilterType` value, `none` for the boolean forms
(`typeof affordance.filterable === 'string'`). -/
def FilterVal.asTypeString : FilterVal → Option String
  | .ofBool _ => none
  | .exact => some "exact"
  | .search => some "search"
  | .select => some "select"
  | .multiSelect => some "multiSelect"
  | .range => some "range"
  | .contains => some "contains"
  | .boolFilter => some "boolean"
  | .fuzzy => some "fuzzy"

/-- `v.charAt(0).toUpperCase() + v.slice(1)`. -/
def capitalizeFirst (v : String) : String :=
  match v.data with
  | [] => v
  | c :: rest => String.mk (c.toUpper :: rest)

/-- One entry of the filter panel configuration; `options` are
(label, value) pairs. -/
structure FilterFieldConfig where
  name : String
  label : String
  filterType : String
  options : Option (List (String × String)) := none
  bounds : Option Bounds := none
  zodType : String
deriving DecidableEq

/-- `toFilterConfig`: one entry per filterable field, with enum options
(title-cased, declaration order) for select filters and numeric bounds for
range filters. `fieldAffordances[key]` is the very record the filterable
entry carries, so `zodType` is read from it directly. -/
def toFilterConfig (c : CollectionDefinition) : List FilterFieldConfig :=
  c.getFilterableFields.filterMap fun kv =>
    match (c.shape.find? (fun p => p.1 = kv.1)).map Prod.snd with
    | none => none
    | some fieldSchema =>
      let filterType := ((kv.2.aff.filterable.bind FilterVal.asTypeString)).getD "search"
      let options :=
        match getEnumValues fieldSchema.node with
        | some vs =>
          if filterType = "select" ∨ filterType = "multiSelect" then
            some (vs.map (fun v => (capitalizeFirst v, v)))
          else none
        | none => none
      let bounds :=
        if filterType = "range" then some (getNumericBounds fieldSchema.node) else none
      some { name := kv.1, label := kv.2.aff.title.getD kv.1, filterType := filterType,
             options := options, bounds := bounds, zodType := kv.2.zodType }

/-! Collection store (src/store.ts). -/

/-- A TanStack-style sorting entry. -/
structure SortingState where
  id : String
  desc : Bool
deriving DecidableEq

/-- A column filter (the opaque `unknown` filter value is modelled as a
string). -/
structure ColumnFilter where
  id : String
  value : String
deriving DecidableEq

/-- Pagination state. -/
structure PaginationState where
  pageIndex : Int
  pageSize : Int
deriving DecidableEq

/-- The full collection UI state (`CollectionState<T>`); record maps are
modelled as association lists in insertion order. -/
structure CollectionState (T : Type) where
  items : List T
  totalCount : Int
  loading : Bool
  error : Option String
  sorting : List SortingState
  columnFilters : List ColumnFilter
  globalFilter : String
  pagination : PaginationState
  rowSelection : List (String × Bool)
  columnVisibility : List (String × Bool)
  columnOrder : List String
  grouping : List String

/-- `buildInitialVisibility`: an entry `key ↦ false` exactly for the fields
with `visible === false` or a truthy `hidden`. -/
def buildInitialVisibility (collection : CollectionDefinition) : List (String × Bool) :=
  collection.fieldAffordances.filterMap fun kv =>
    if kv.2.aff.visible = some false ∨ kv.2.aff.hidden = some true then
      some (kv.1, false)
    else none

/-- The `order ?? 999` sort key used for the initial column order. -/
def orderKeyOf (fa : ResolvedFA) : Int :=
  fa.aff.order.getD 999

/-- `buildInitialOrder`: field keys sorted by ascending `order ?? 999`
(stable, as JS `Array.prototype.sort`). -/
def buildInitialOrder (collection : CollectionDefinition) : List String :=
  (collection.fieldAffordances.mergeSort
    (fun a b => orderKeyOf a.2 ≤ orderKeyOf b.2)).map Prod.fst

/-- The page size the store reads from resolved pagination:
`defaultPageSize ?? 25` when pagination is a config object, else 25. -/
def storeDefaultPageSize : Option PaginationSetting → Int
  | some (.asConfig c) => c.defaultPageSize.getD 25
  | _ => 25

/-- A collection store; the pure action functions are the top-level `set*`
definitions below (only `resetAction` reads the initial state, which it
takes as an explicit argument). -/
structure CollectionStore (T : Type) where
  initialState : CollectionState T

/-- `createCollectionStore`: derive the initial UI state from the resolved
collection definition. -/
def createCollectionStore (T : Type) (collection : CollectionDefinition) :
    CollectionStore T :=
  { initialState :=
    { items := [], totalCount := 0, loading := false, error := none,
      sorting :=
        match collection.affordances.defaultSort with
        | some ds => [{ id := ds.field, desc := ds.direction = "desc" }]
        | none => [],
      columnFilters := [], globalFilter := "",
      pagination :=
        { pageIndex := 0,
          pageSize := storeDefaultPageSize collection.affordances.pagination },
      rowSelection := [],
      columnVisibility := buildInitialVisibility collection,
      columnOrder := buildInitialOrder collection,
      grouping := [] } }

/-- Action `setItems`. -/
def setItems {T : Type} (state : CollectionState T) (items : List T) (total : Option Int) :
    CollectionState T :=
  { state with items := items, totalCount := total.getD (items.length : Int) }

/-- Action `setSorting`. -/
def setSorting {T : Type} (state : CollectionState T) (sorting : List SortingState) :
    CollectionState T :=
  { state with sorting := sorting }

/-- Action `setColumnFilters`: also snaps back to the first page. -/
def setColumnFilters {T : Type} (state : CollectionState T) (filters : List ColumnFilter) :
    CollectionState T :=
  { state with columnFilters := filters,
               pagination := { state.pagination with pageIndex := 0 } }

/-- Action `setGlobalFilter`: also snaps back to the first page. -/
def setGlobalFilter {T : Type} (state : CollectionState T) (filter : String) :
    CollectionState T :=
  { state with globalFilter := filter,
               pagination := { state.pagination with pageIndex := 0 } }

/-- Action `setPagination`. -/
def setPagination {T : Type} (state : CollectionState T) (pagination : PaginationState) :
    CollectionState T :=
  { state with pagination := pagination }

/-- Action `setRowSelection`. -/
def setRowSelection {T : Type} (state : CollectionState T) (selection : List (String × Bool)) :
    CollectionState T :=
  { state with rowSelection := selection }

/-- Action `setColumnVisibility`. -/
def setColumnVisibility {T : Type} (state : CollectionState T)
    (visibility : List (String × Bool)) : CollectionState T :=
  { state with columnVisibility := visibility }

/-- Action `setColumnOrder`. -/
def setColumnOrder {T : Type} (state : CollectionState T) (order : List String) :
    CollectionState T :=
  { state with columnOrder := order }

/-- Action `setGrouping`. -/
def setGrouping {T : Type} (state : CollectionState T) (grouping : List String) :
    CollectionState T :=
  { state with grouping := grouping }

/-- Action `setLoading`. -/
def setLoading {T : Type} (state : CollectionState T) (loading : Bool) : CollectionState T :=
  { state with loading := loading }

/-- Action `setError`. -/
def setError {T : Type} (state : CollectionState T) (error : Option String) :
    CollectionState T :=
  { state with error := error }

/-- Action `clearSelection`. -/
def clearSelection {T : Type} (state : CollectionState T) : CollectionState T :=
  { state with rowSelection := [] }

/-- Action `reset`: restores the initial sorting and clears filters,
selection and grouping, keeping the current page size. -/
def resetAction {T : Type} (initialState state : CollectionState T) : CollectionState T :=
  { state with sorting := initialState.sorting, columnFilters := [], globalFilter := "",
               pagination := { pageIndex := 0, pageSize := state.pagination.pageSize },
               rowSelection := [], grouping := [] }

/-! Codegen/differ (src/codegen.ts): the config-object builders. The file
serializer renders these objects to text; the claims under proof concern
the object builders, in particular which field blocks `diffOnly` emits. -/

/-- A serialized affordance property value. -/
inductive PropValue where
  | pStr (s : String)
  | pBool (b : Bool)
  | pInt (n : Int)
  | pSort (v : SortableVal)
  | pFilter (v : FilterVal)
  | pAgg (v : AggVal)
  | pPinned (v : PinnedVal)
  | pBadge (m : List (String × String))
deriving DecidableEq

/-- `FIELD_PROP_ORDER`: canonical serialization order of field affordance
properties. -/
def FIELD_PROP_ORDER : List String :=
  ["title", "description",
   "sortable", "filterable", "searchable", "groupable", "aggregatable",
   "readable", "editable", "inlineEditable",
   "requiredOnCreate", "requiredOnUpdate", "immutableAfterCreate",
   "visible", "hidden", "detailOnly", "summaryField",
   "columnWidth", "minWidth", "maxWidth", "resizable", "pinned", "order",
   "displayFormat", "badge", "copyable", "truncate", "tooltip",
   "editWidget", "editPlaceholder", "editHelp"]

/-- Read a named affordance property as a serialized value (`undefined`
becomes `none`). -/
def getProp (fa : FieldAffordance) : String → Option PropValue
  | "title" => fa.title.map .pStr
  | "description" => fa.description.map .pStr
  | "sortable" => fa.sortable.map .pSort
  | "filterable" => fa.filterable.map .pFilter
  | "searchable" => fa.searchable.map .pBool
  | "groupable" => fa.groupable.map .pBool
  | "aggregatable" => fa.aggregatable.map .pAgg
  | "readable" => fa.readable.map .pBool
  | "editable" => fa.editable.map .pBool
  | "inlineEditable" => fa.inlineEditable.map .pBool
  | "requiredOnCreate" => fa.requiredOnCreate.map .pBool
  | "requiredOnUpdate" => fa.requiredOnUpdate.map .pBool
  | "immutableAfterCreate" => fa.immutableAfterCreate.map .pBool
  | "visible" => fa.visible.map .pBool
  | "hidden" => fa.hidden.map .pBool
  | "detailOnly" => fa.detailOnly.map .pBool
  | "summaryField" => fa.summaryField.map .pBool
  | "columnWidth" => fa.columnWidth.map .pInt
  | "minWidth" => fa.minWidth.map .pInt
  | "maxWidth" => fa.maxWidth.map .pInt
  | "resizable" => fa.resizable.map .pBool
  | "pinned" => fa.pinned.map .pPinned
  | "order" => fa.order.map .pInt
  | "displayFormat" => fa.displayFormat.map .pStr
  | "badge" => fa.badge.map .pBadge
  | "copyable" => fa.copyable.map .pBool
  | "truncate" => fa.truncate.map .pInt
  | "tooltip" => fa.tooltip.map .pBool
  | "editWidget" => fa.editWidget.map .pStr
  | "editPlaceholder" => fa.editPlaceholder.map .pStr
  | "editHelp" => fa.editHelp.map .pStr
  | _ => none

/-- `valueEqual`: identical scalars, structural equality for compound
values (the JSON.stringify comparison of the source coincides with
structural equality on these value types). -/
def valueEqual (a b : PropValue) : Bool :=
  a == b

/-- The diff-mode property loop of `buildFieldsObject`: keep a defined
resolved property only when it differs from the freshly inferred baseline
(for `title`, the baseline is `inferred.title ?? humanized key`). -/
def diffFieldProps (fa inferred : FieldAffordance) (inferredTitle : String) :
    List (String × PropValue) :=
  FIELD_PROP_ORDER.filterMap fun prop =>
    match getProp fa prop with
    | none => none
    | some resolved =>
      let baseline :=
        if prop = "title" then some (PropValue.pStr inferredTitle) else getProp inferred prop
      match baseline with
      | none => some (prop, resolved)
      | some b => if valueEqual resolved b then none else some (prop, resolved)

/-- The full-mode property loop of `buildFieldsObject`: every defined
property in canonical order (the trailing extra-property loop contributes
nothing here, since the record's only non-canonical key, `zodType`, is a
computed property). -/
def fullFieldProps (fa : FieldAffordance) : List (String × PropValue) :=
  FIELD_PROP_ORDER.filterMap fun prop => (getProp fa prop).map ((prop, ·))

/-- One field of diff-mode `buildFieldsObject`: skipped when the key has no
schema node (`continue`) or when no property differs from inference. -/
def diffFieldEntry (shape : List (String × ZodSchema)) (kv : String × ResolvedFA) :
    Option (String × List (String × PropValue)) :=
  match (shape.find? (fun p => p.1 = kv.1)).map Prod.snd with
  | none => none
  | some fieldSchema =>
    let inferred := inferFieldAffordances kv.1 fieldSchema
    let inferredTitle := inferred.title.getD (humanizeFieldName kv.1)
    let props := diffFieldProps kv.2.aff inferred inferredTitle
    if props.isEmpty then none else some (kv.1, props)

/-- One field of full-mode `buildFieldsObject`: skipped when it has no
defined properties. -/
def fullFieldEntry (kv : String × ResolvedFA) :
    Option (String × List (String × PropValue)) :=
  let props := fullFieldProps kv.2.aff
  if props.isEmpty then none else some (kv.1, props)

/-- `buildFieldsObject`: per-field property blocks, diff-only or full. -/
def buildFieldsObject (collection : CollectionDefinition) (diffOnly : Bool) :
    List (String × List (String × PropValue)) :=
  collection.fieldAffordances.filterMap fun kv =>
    if diffOnly then diffFieldEntry collection.shape kv else fullFieldEntry kv

/-- The object `buildConfigObject` produces (collection affordances and
operations are carried through whole; `fields` is present only when some
field has emitted properties). -/
structure ConfigObject where
  idField : String
  labelField : String
  affordances : Option CollectionAffordances
  fields : Option (List (String × List (String × PropValue)))
  operations : Option (List OperationDefinition)
deriving DecidableEq

/-- `buildConfigObject`: identity fields, collection affordances, the
(possibly absent) fields block, and operations. -/
def buildConfigObject (collection : CollectionDefinition) (diffOnly : Bool) : ConfigObject :=
  let fields := buildFieldsObject collection diffOnly
  { idField := collection.idField, labelField := collection.labelField,
    affordances := some collection.affordances,
    fields := if fields.isEmpty then none else some fields,
    operations :=
      if collection.operations.isEmpty then none else some collection.operations }

/-! Concrete sample schemas and states used by witnesses and
counterexamples. -/

/-- A plain `z.string()` field schema. -/
def plainStringSchema : ZodSchema := { node := .base { ty := some "string" } }

/-- A `z.enum(['draft', 'active', 'archived'])` field schema (Zod v4
`entries`). -/
def statusEnumSchema : ZodSchema :=
  { node := .base
      { ty := some "enum",
        entries := some [("draft", "draft"), ("active", "active"), ("archived", "archived")] } }

/-- A one-field collection `{ status: enum['draft','active','archived'] }`
with no overrides. -/
def statusCollection : CollectionDefinition :=
  defineCollection [("status", statusEnumSchema)] none

/-- A two-field collection `{ id: string, name: string }` with no
overrides. -/
def demoCollection : CollectionDefinition :=
  defineCollection [("id", plainStringSchema), ("name", plainStringSchema)] none

/-- A numeric node with an instance-level minimum and a redundant checks
list. -/
def nodeWithInstMin : ZodNode :=
  .base { ty := some "number", minValue := some 3,
          checks := some [{ kind := "min", value := 7 }] }

/-- A numeric node with duplicate min checks and a max check, and no
instance-level bounds. -/
def nodeChecksOnly : ZodNode :=
  .base { ty := some "number",
          checks := some [{ kind := "min", value := 7 }, { kind := "min", value := 9 },
                          { kind := "max", value := 20 }] }

/-- A collection-affordance override with a partial pagination object and
the search shorthand `true`. -/
def pageFiftyConfig : CollectionAffordances :=
  { pagination := some (.asConfig { defaultPageSize := some 50 }),
    search := some (.asBool true) }

/-- A concrete store state over `Nat` items. -/
def sampleState : CollectionState Nat :=
  { items := [], totalCount := 0, loading := false, error := none, sorting := [],
    columnFilters := [], globalFilter := "",
    pagination := { pageIndex := 0, pageSize := 25 },
    rowSelection := [], columnVisibility := [], columnOrder := [], grouping := [] }

/-! Helper lemmas. -/

/-- Unwrapping always lands on a wrapper-free node. -/
theorem unwrap_terminal (n : ZodNode) : isTerminalNode (unwrapZodSchema n) = true := by
  induction n with
  | noDef => rfl
  | optional inner ih => simpa [unwrapZodSchema] using ih
  | nullable inner ih => simpa [unwrapZodSchema] using ih
  | withDefault inner ih => simpa [unwrapZodSchema] using ih
  | base d => rfl

/-- Unwrapping a wrapper-free node is the identity. -/
theorem unwrap_of_terminal (n : ZodNode) (h : isTerminalNode n = true) :
    unwrapZodSchema n = n := by
  cases n <;> simp [isTerminalNode] at h <;> rfl

/-- The base type of a node equals the base type of its unwrapping. -/
theorem getZodBaseType_unwrap (n : ZodNode) :
    getZodBaseType n = getZodBaseType (unwrapZodSchema n) := by
  induction n <;> simp [getZodBaseType, unwrapZodSchema, *]

/-- `bcsMin` never touches `max`; `bcsMax` never touches `min`. -/
theorem bcs_frame (r : Bounds) (c : ZodCheck) :
    (bcsMin r c).max = r.max ∧ (bcsMax r c).min = r.min := by
  unfold bcsMin bcsMax
  constructor <;> split <;> rfl

/-- A `min` already present in the bounds survives a check step. -/
theorem boundsStep_min_some (r : Bounds) (c : ZodCheck) (v : Int) (h : r.min = some v) :
    (boundsCheckStep r c).min = some v := by
  unfold boundsCheckStep
  rw [(bcs_frame _ c).2]
  unfold bcsMin
  split <;> simp_all

/-- A `max` already present in the bounds survives a check step. -/
theorem boundsStep_max_some (r : Bounds) (c : ZodCheck) (v : Int) (h : r.max = some v) :
    (boundsCheckStep r c).max = some v := by
  unfold boundsCheckStep
  have hmin : (bcsMin r c).max = some v := by rw [(bcs_frame r c).1]; exact h
  unfold bcsMax
  split <;> simp_all

/-- A `min`-kind check fills an absent `min`. -/
theorem boundsStep_min_fill (r : Bounds) (c : ZodCheck) (hk : c.kind = "min")
    (h : r.min = none) : (boundsCheckStep r c).min = some c.value := by
  unfold boundsCheckStep
  rw [(bcs_frame _ c).2]
  unfold bcsMin
  split <;> simp_all

/-- A non-`min` check leaves an absent `min` absent. -/
theorem boundsStep_min_skip (r : Bounds) (c : ZodCheck) (hk : ¬c.kind = "min")
    (h : r.min = none) : (boundsCheckStep r c).min = none := by
  unfold boundsCheckStep
  rw [(bcs_frame _ c).2]
  unfold bcsMin
  split <;> simp_all

/-- A `max`-kind check fills an absent `max`. -/
theorem boundsStep_max_fill (r : Bounds) (c : ZodCheck) (hk : c.kind = "max")
    (h : r.max = none) : (boundsCheckStep r c).max = some c.value := by
  unfold boundsCheckStep
  have hmin : (bcsMin r c).max = none := by rw [(bcs_frame r c).1]; exact h
  unfold bcsMax
  split <;> simp_all

/-- A non-`max` check leaves an absent `max` absent. -/
theorem boundsStep_max_skip (r : Bounds) (c : ZodCheck) (hk : ¬c.kind = "max")
    (h : r.max = none) : (boundsCheckStep r c).max = none := by
  unfold boundsCheckStep
  have hmin : (bcsMin r c).max = none := by rw [(bcs_frame r c).1]; exact h
  unfold bcsMax
  split <;> simp_all

/-- A `min` already present in the bounds survives the whole check loop. -/
theorem foldl_bounds_min_some (cs : List ZodCheck) (r : Bounds) (v : Int) (h : r.min = some v) :
    (cs.foldl boundsCheckStep r).min = some v := by
  induction cs generalizing r with
  | nil => simpa using h
  | cons c cs ih => exact ih _ (boundsStep_min_some r c v h)

/-- A `max` already present in the bounds survives the whole check loop. -/
theorem foldl_bounds_max_some (cs : List ZodCheck) (r : Bounds) (v : Int) (h : r.max = some v) :
    (cs.foldl boundsCheckStep r).max = some v := by
  induction cs generalizing r with
  | nil => simpa using h
  | cons c cs ih => exact ih _ (boundsStep_max_some r c v h)

/-- Starting from no `min`, the check loop keeps the first `min` check. -/
theorem foldl_bounds_min_none (cs : List ZodCheck) (r : Bounds) (h : r.min = none) :
    (cs.foldl boundsCheckStep r).min
      = (cs.find? (fun c => c.kind == "min")).map ZodCheck.value := by
  induction cs generalizing r with
  | nil => simpa using h
  | cons c cs ih =>
    by_cases hk : c.kind = "min"
    · have : ((c :: cs).foldl boundsCheckStep r).min = some c.value :=
        foldl_bounds_min_some cs _ _ (boundsStep_min_fill r c hk h)
      rw [this, List.find?_cons_of_pos _ (by simp [hk])]
      rfl
    · have : ((c :: cs).foldl boundsCheckStep r).min
          = (cs.find? (fun c => c.kind == "min")).map ZodCheck.value :=
        ih _ (boundsStep_min_skip r c hk h)
      rw [this, List.find?_cons_of_neg _ (by simp [hk])]

/-- Starting from no `max`, the check loop keeps the first `max` check. -/
theorem foldl_bounds_max_none (cs : List ZodCheck) (r : Bounds) (h : r.max = none) :
    (cs.foldl boundsCheckStep r).max
      = (cs.find? (fun c => c.kind == "max")).map ZodCheck.value := by
  induction cs generalizing r with
  | nil => simpa using h
  | cons c cs ih =>
    by_cases hk : c.kind = "max"
    · have : ((c :: cs).foldl boundsCheckStep r).max = some c.value :=
        foldl_bounds_max_some cs _ _ (boundsStep_max_fill r c hk h)
      rw [this, List.find?_cons_of_pos _ (by simp [hk])]
      rfl
    · have : ((c :: cs).foldl boundsCheckStep r).max
          = (cs.find? (fun c => c.kind == "max")).map ZodCheck.value :=
        ih _ (boundsStep_max_skip r c hk h)
      rw [this, List.find?_cons_of_neg _ (by simp [hk])]

/-- `applyInstMax` never touches `min`. -/
theorem applyInstMax_min (o : Option Int) (r : Bounds) : (applyInstMax o r).min = r.min := by
  rcases o with _ | v
  · rfl
  · simp only [applyInstMax]
    split <;> rfl

/-- `applyInstMin` never touches `max`. -/
theorem applyInstMin_max (o : Option Int) (r : Bounds) : (applyInstMin o r).max = r.max := by
  rcases o with _ | v
  · rfl
  · simp only [applyInstMin]
    split <;> rfl

/-- `applyChecks` keeps a present `min`. -/
theorem applyChecks_min_some (o : Option (List ZodCheck)) (r : Bounds) (v : Int)
    (h : r.min = some v) : (applyChecks o r).min = some v := by
  unfold applyChecks
  rcases o with _ | cs
  · exact h
  · exact foldl_bounds_min_some cs r v h

/-- `applyChecks` keeps a present `max`. -/
theorem applyChecks_max_some (o : Option (List ZodCheck)) (r : Bounds) (v : Int)
    (h : r.max = some v) : (applyChecks o r).max = some v := by
  unfold applyChecks
  rcases o with _ | cs
  · exact h
  · exact foldl_bounds_max_some cs r v h

/-- A key matching the secret pattern is one of its eleven lowercase
spellings. -/
theorem secret_lower (key : String) (h : testSecretPatterns key = true) :
    strLower key = "password" ∨ strLower key = "secret" ∨ strLower key = "token" ∨
    strLower key = "apikey" ∨ strLower key = "api_key" ∨
    strLower key = "accesskey" ∨ strLower key = "access_key" ∨
    strLower key = "privatekey" ∨ strLower key = "private_key" ∨
    strLower key = "hash" ∨ strLower key = "salt" := by
  simpa [testSecretPatterns, Bool.or_eq_true, beq_iff_eq, or_assoc] using h

/-- A key matching the secret pattern matches none of the other
case-insensitive full-match name patterns. -/
theorem secret_excludes (key : String) (h : testSecretPatterns key = true) :
    testCreatedPatterns key = false ∧ testUpdatedPatterns key = false ∧
    testDeletedPatterns key = false ∧ testEmailPatterns key = false ∧
    testNamePatterns key = false ∧ testDescriptionPatterns key = false ∧
    testImagePatterns key = false ∧ testStatusPatterns key = false := by
  have hl := secret_lower key h
  refine ⟨?_, ?_, ?_, ?_, ?_, ?_, ?_, ?_⟩ <;>
    rcases hl with h'|h'|h'|h'|h'|h'|h'|h'|h'|h'|h' <;>
      simp [testCreatedPatterns, testUpdatedPatterns, testDeletedPatterns,
        testEmailPatterns, testNamePatterns, testDescriptionPatterns,
        testImagePatterns, testStatusPatterns, h']

/-- Every type-default record is visible. -/
theorem getTypeDefaults_visible (t : String) : (getTypeDefaults t).visible = some true := by
  unfold getTypeDefaults
  split_ifs <;> rfl

/-- A string-check iteration never touches `visible`. -/
theorem vcs_visible (r : FieldAffordance) (c : ZodCheck) :
    (validationCheckStep r c).visible = r.visible := by
  unfold validationCheckStep vcsUuid vcsUrl vcsEmail
  split <;> split <;> split <;> rfl

/-- The whole string-check loop never touches `visible`. -/
theorem foldl_vcs_visible (cs : List ZodCheck) (r : FieldAffordance) :
    (cs.foldl validationCheckStep r).visible = r.visible := by
  induction cs generalizing r with
  | nil => rfl
  | cons c cs ih => rw [List.foldl_cons, ih, vcs_visible]

/-- `refineStringChecks` never touches `visible`. -/
theorem refineStringChecks_visible (d : BaseDef) (r : FieldAffordance) :
    (refineStringChecks d r).visible = r.visible := by
  unfold refineStringChecks
  rcases hcs : d.checks with _ | cs
  · rfl
  · exact foldl_vcs_visible cs r

/-- The format refinements never touch `visible`. -/
theorem refineFormats_visible (d : BaseDef) (r : FieldAffordance) :
    (refineFormatEmail d r).visible = r.visible ∧
    (refineFormatUrl d r).visible = r.visible ∧
    (refineFormatUuid d r).visible = r.visible := by
  unfold refineFormatEmail refineFormatUrl refineFormatUuid
  refine ⟨?_, ?_, ?_⟩ <;> split <;> rfl

/-- The string branch of layer 2 never touches `visible`. -/
theorem refineStringBranch_visible (d : BaseDef) (r : FieldAffordance) :
    (refineStringBranch d r).visible = r.visible := by
  unfold refineStringBranch
  split
  · rw [(refineFormats_visible d _).2.2, (refineFormats_visible d _).2.1,
      (refineFormats_visible d _).1, refineStringChecks_visible]
  · rfl

/-- The boolean-default refinement never touches `visible`. -/
theorem refineBooleanDefault_visible (d : BaseDef) (r : FieldAffordance) :
    (refineBooleanDefault d r).visible = r.visible := by
  unfold refineBooleanDefault
  split <;> rfl

/-- Layer 2 as a whole never touches `visible`. -/
theorem refineByValidations_visible (schema : ZodSchema) (d : FieldAffordance) :
    (refineByValidations schema d).visible = d.visible := by
  unfold refineByValidations
  cases hu : unwrapZodSchema schema.node with
  | base dd => rw [refineBooleanDefault_visible, refineStringBranch_visible]
  | noDef => rfl
  | optional inner => rfl
  | nullable inner => rfl
  | withDefault inner => rfl

/-- Search normalization never touches `pagination`. -/
theorem normalizeSearch_pagination (m : CollectionAffordances) :
    (normalizeSearch m).pagination = m.pagination := by
  unfold normalizeSearch
  rcases hms : m.search with _ | s
  · rfl
  · rcases s with b | c
    · rcases b <;> rfl
    · rfl

/-- Pagination normalization never touches `search`. -/
theorem normalizePagination_search (m : CollectionAffordances) :
    (normalizePagination m).search = m.search := by
  unfold normalizePagination
  rcases hmp : m.pagination with _ | p
  · rfl
  · rcases p with b | c
    · rcases b <;> rfl
    · rfl

/-- Case characterization of pagination normalization. -/
theorem normalizePagination_eq (m : CollectionAffordances) :
    (normalizePagination m).pagination =
      match m.pagination with
      | some (.asBool true) => some (.asConfig DEFAULT_PAGINATION)
      | some (.asConfig c) => some (.asConfig (mergePaginationConfig DEFAULT_PAGINATION c))
      | other => other := by
  unfold normalizePagination
  rcases hmp : m.pagination with _ | p
  · exact hmp
  · rcases p with b | c
    · rcases b
      · exact hmp
      · rfl
    · rfl

/-- Case characterization of search normalization. -/
theorem normalizeSearch_eq (m : CollectionAffordances) :
    (normalizeSearch m).search =
      match m.search with
      | some (.asBool true) => some (.asConfig DEFAULT_SEARCH)
      | some (.asConfig c) => some (.asConfig (mergeSearchConfig DEFAULT_SEARCH c))
      | other => other := by
  unfold normalizeSearch
  rcases hms : m.search with _ | s
  · exact hms
  · rcases s with b | c
    · rcases b
      · exact hms
      · rfl
    · rfl

/-- Full case characterization of the resolved `pagination` value under an
explicit override object. -/
theorem resolve_pagination_char (ca : CollectionAffordances) :
    (resolveCollectionAffordances (some ca)).pagination =
      match ca.pagination with
      | some (.asBool true) => some (.asConfig DEFAULT_PAGINATION)
      | some (.asBool false) => some (.asBool false)
      | some (.asConfig c) => some (.asConfig (mergePaginationConfig DEFAULT_PAGINATION c))
      | none => some (.asConfig (mergePaginationConfig DEFAULT_PAGINATION DEFAULT_PAGINATION)) := by
  rw [show resolveCollectionAffordances (some ca)
        = normalizeSearch (normalizePagination
            (mergeCollectionAffordances DEFAULT_COLLECTION_AFFORDANCES ca)) from rfl,
    normalizeSearch_pagination, normalizePagination_eq]
  rw [show (mergeCollectionAffordances DEFAULT_COLLECTION_AFFORDANCES ca).pagination
        = (ca.pagination <|> DEFAULT_COLLECTION_AFFORDANCES.pagination) from rfl]
  rcases hca : ca.pagination with _ | p
  · rfl
  · rcases p with b | c
    · rcases b <;> rfl
    · rfl

/-- Full case characterization of the resolved `search` value under an
explicit override object. -/
theorem resolve_search_char (ca : CollectionAffordances) :
    (resolveCollectionAffordances (some ca)).search =
      match ca.search with
      | some (.asBool true) => some (.asConfig DEFAULT_SEARCH)
      | some (.asBool false) => some (.asBool false)
      | some (.asConfig c) => some (.asConfig (mergeSearchConfig DEFAULT_SEARCH c))
      | none => some (.asConfig DEFAULT_SEARCH) := by
  rw [show resolveCollectionAffordances (some ca)
        = normalizeSearch (normalizePagination
            (mergeCollectionAffordances DEFAULT_COLLECTION_AFFORDANCES ca)) from rfl,
    normalizeSearch_eq, normalizePagination_search]
  rw [show (mergeCollectionAffordances DEFAULT_COLLECTION_AFFORDANCES ca).search
        = (ca.search <|> DEFAULT_COLLECTION_AFFORDANCES.search) from rfl]
  rcases hca : ca.search with _ | s
  · rfl
  · rcases s with b | c
    · rcases b <;> rfl
    · rfl

/-- Title synthesis never touches the query/CRUD/visibility properties. -/
theorem fillTitle_frame (key : String) (a : FieldAffordance) :
    (fillTitle key a).editable = a.editable ∧ (fillTitle key a).filterable = a.filterable ∧
    (fillTitle key a).searchable = a.searchable ∧ (fillTitle key a).visible = a.visible ∧
    (fillTitle key a).sortable = a.sortable := by
  unfold fillTitle
  split <;> exact ⟨rfl, rfl, rfl, rfl, rfl⟩

/-! Claim theorems. -/

/-- C1: a field name matching both the identifier heuristic and the
later-listed secret heuristic (the one overlapping pattern family in the
fixed order identifier, created-at, updated-at, deleted-at, secret, email,
name/title, description, image, status) receives the union of both patches
— `editable := false` from the identifier patch survives — while every
property set by both patches resolves to the secret patch's value; in
particular `filterable` ends as `false`, not the identifier patch's
`'exact'`. -/
theorem claim_C1_heuristic_union_later_wins (key : String) (d : FieldAffordance)
    (hid : (testIdPatterns key || testIdSuffixPatterns key) = true)
    (hsec : testSecretPatterns key = true) :
    refineByFieldName key d =
      { d with editable := some false, searchable := some false,
               filterable := some (FilterVal.ofBool false), readable := some false,
               sortable := some (SortableVal.ofBool false), visible := some false } := by
  obtain ⟨hc, hu, hdel, he, hn, hds, him, hst⟩ := secret_excludes key hsec
  simp [refineByFieldName, patchId, patchCreated, patchUpdated, patchDeleted,
    patchSecret, patchEmail, patchName, patchDescription, patchImage, patchStatus,
    hid, hsec, hc, hu, hdel, he, hn, hds, him, hst]

/-- C1 witness: `apiKey` matches both the identifier-suffix pattern and the
secret pattern, and resolves with `filterable := false` (the secret patch
overriding the identifier patch's `'exact'`). -/
theorem claim_C1_witness :
    (testIdPatterns "apiKey" || testIdSuffixPatterns "apiKey") = true ∧
    testSecretPatterns "apiKey" = true ∧
    refineByFieldName "apiKey" STRING_FIELD_DEFAULTS =
      { STRING_FIELD_DEFAULTS with
          editable := some false, searchable := some false,
          filterable := some (FilterVal.ofBool false), readable := some false,
          sortable := some (SortableVal.ofBool false), visible := some false } :=
  ⟨by decide, by decide,
   claim_C1_heuristic_union_later_wins "apiKey" STRING_FIELD_DEFAULTS (by decide) (by decide)⟩

/-- C9: schema unwrapping always reaches a terminal (wrapper-free) node,
unwrapping an already-terminal node returns it unchanged, and hence the
unwrap operation is idempotent. -/
theorem claim_C9_unwrap_idempotent (n : ZodNode) :
    isTerminalNode (unwrapZodSchema n) = true ∧
    (isTerminalNode n = true → unwrapZodSchema n = n) ∧
    unwrapZodSchema (unwrapZodSchema n) = unwrapZodSchema n :=
  ⟨unwrap_terminal n, unwrap_of_terminal n,
   unwrap_of_terminal (unwrapZodSchema n) (unwrap_terminal n)⟩

/-- C9 witness: the idempotence theorem applied at a concrete wrapper node
and at a concrete terminal node. -/
theorem claim_C9_witness :
    isTerminalNode (unwrapZodSchema (ZodNode.optional (.base {}))) = true ∧
    unwrapZodSchema (ZodNode.base {}) = ZodNode.base {} :=
  ⟨(claim_C9_unwrap_idempotent (ZodNode.optional (.base {}))).1,
   (claim_C9_unwrap_idempotent (ZodNode.base {})).2.1 (by decide)⟩

/-- C2 counterexample: the field named `uuid` (a plain string) matches the
identifier heuristic, yet resolves visible — the claim's "hidden (not
visible)" fails for every identifier-like name other than exactly `id`. -/
theorem claim_C2_counterexample :
    testIdPatterns "uuid" = true ∧
    (inferFieldAffordances "uuid" plainStringSchema).visible = some true := by
  constructor <;> decide

/-- C2 (amended): a field whose name matches the identifier heuristic and
no other name heuristic resolves, absent metadata, to non-editable,
exact-match filterable and non-searchable; it is hidden exactly when the
name is literally `id`, and stays visible otherwise. -/
theorem claim_C2_identifier_resolution (key : String) (schema : ZodSchema)
    (hid : (testIdPatterns key || testIdSuffixPatterns key) = true)
    (hsec : testSecretPatterns key = false)
    (hc : testCreatedPatterns key = false) (hu : testUpdatedPatterns key = false)
    (hdel : testDeletedPatterns key = false) (he : testEmailPatterns key = false)
    (hn : testNamePatterns key = false) (hds : testDescriptionPatterns key = false)
    (him : testImagePatterns key = false) (hst : testStatusPatterns key = false)
    (hmeta : schema.meta = none) :
    (inferFieldAffordances key schema).editable = some false ∧
    (inferFieldAffordances key schema).filterable = some FilterVal.exact ∧
    (inferFieldAffordances key schema).searchable = some false ∧
    (inferFieldAffordances key schema).visible
      = (if key = "id" then some false else some true) := by
  have hbase :
      (refineByValidations schema (getTypeDefaults (getZodBaseType schema.node))).visible
        = some true := by
    rw [refineByValidations_visible, getTypeDefaults_visible]
  set a := refineByValidations schema (getTypeDefaults (getZodBaseType schema.node)) with ha
  have hrefine : refineByFieldName key a =
      { a with editable := some false,
               visible := if key = "id" then some false else a.visible,
               filterable := some .exact, searchable := some false } := by
    simp [refineByFieldName, patchId, patchCreated, patchUpdated, patchDeleted, patchSecret,
      patchEmail, patchName, patchDescription, patchImage, patchStatus,
      hid, hsec, hc, hu, hdel, he, hn, hds, him, hst]
  unfold inferFieldAffordances
  rw [getZodMeta, hmeta]
  simp only [applyMetaLayer]
  rw [← ha, hrefine]
  rw [(fillTitle_frame key _).1, (fillTitle_frame key _).2.1,
    (fillTitle_frame key _).2.2.1, (fillTitle_frame key _).2.2.2.1]
  refine ⟨rfl, rfl, rfl, ?_⟩
  show (if key = "id" then some false else a.visible)
      = (if key = "id" then some false else some true)
  rw [hbase]

/-- C2 witness: the amended theorem applied to the suffix-matching field
name `userId` over a plain string schema. -/
theorem claim_C2_witness :
    (inferFieldAffordances "userId" plainStringSchema).editable = some false ∧
    (inferFieldAffordances "userId" plainStringSchema).filterable = some FilterVal.exact ∧
    (inferFieldAffordances "userId" plainStringSchema).searchable = some false ∧
    (inferFieldAffordances "userId" plainStringSchema).visible
      = (if "userId" = "id" then some false else some true) :=
  claim_C2_identifier_resolution "userId" plainStringSchema (by decide) (by decide)
    (by decide) (by decide) (by decide) (by decide) (by decide) (by decide)
    (by decide) (by decide) rfl

/-- An unrecognized base type tag falls through to the conservative
defaults. -/
theorem getTypeDefaults_unrecognized (t : String)
    (h : isRecognizedTypeTag t = false) :
    getTypeDefaults t = UNKNOWN_FIELD_DEFAULTS := by
  simp only [isRecognizedTypeTag, Bool.or_eq_false_iff, beq_eq_false_iff_ne, ne_eq] at h
  unfold getTypeDefaults
  split_ifs <;> simp_all

/-- Layer 2 is the identity on any schema whose base type is not a
recognized tag (in particular `unknown`). -/
theorem refineByValidations_unrecognized (schema : ZodSchema) (d : FieldAffordance)
    (h : isRecognizedTypeTag (getZodBaseType schema.node) = false) :
    refineByValidations schema d = d := by
  have hh : isRecognizedTypeTag (getZodBaseType (unwrapZodSchema schema.node)) = false := by
    rw [← getZodBaseType_unwrap]
    exact h
  unfold refineByValidations
  cases hu : unwrapZodSchema schema.node with
  | base dd =>
    rw [hu] at hh
    have hty : dd.ty ≠ some "string" := by
      intro heq
      rw [getZodBaseType, heq] at hh
      exact absurd hh (by decide)
    have htyb : ¬(dd.ty = some "boolean" ∧ dd.hasDefaultValue = true) := by
      intro hand
      rw [getZodBaseType, hand.1] at hh
      exact absurd hh (by decide)
    show refineBooleanDefault dd (refineStringBranch dd d) = d
    unfold refineBooleanDefault refineStringBranch
    rw [if_neg htyb, if_neg hty]
  | noDef => rfl
  | optional inner => rfl
  | nullable inner => rfl
  | withDefault inner => rfl

/-- Layer 3 is the identity on a key matching no name heuristic. -/
theorem refineByFieldName_noMatch (key : String) (d : FieldAffordance)
    (h1 : testIdPatterns key = false) (h1b : testIdSuffixPatterns key = false)
    (hc : testCreatedPatterns key = false) (hu : testUpdatedPatterns key = false)
    (hdel : testDeletedPatterns key = false) (hsec : testSecretPatterns key = false)
    (he : testEmailPatterns key = false) (hn : testNamePatterns key = false)
    (hds : testDescriptionPatterns key = false) (him : testImagePatterns key = false)
    (hst : testStatusPatterns key = false) :
    refineByFieldName key d = d := by
  simp [refineByFieldName, patchId, patchCreated, patchUpdated, patchDeleted, patchSecret,
    patchEmail, patchName, patchDescription, patchImage, patchStatus,
    h1, h1b, hc, hu, hdel, hsec, he, hn, hds, him, hst]

/-- C7 counterexample: an unreadable node under the field name `name` still
gets the name heuristic applied, so it resolves searchable and sortable —
not the maximally conservative record the claim states. -/
theorem claim_C7_counterexample :
    getZodBaseType (ZodNode.noDef) = "unknown" ∧
    (inferFieldAffordances "name" { node := ZodNode.noDef, meta := none }).searchable
      = some true ∧
    (inferFieldAffordances "name" { node := ZodNode.noDef, meta := none }).sortable
      = some SortableVal.both := by
  refine ⟨rfl, ?_, ?_⟩ <;> decide

/-- C7 (amended): a field whose node is unrecognized or malformed (its
base type tag outside the recognized set — an unreadable def yields the tag
`unknown`) resolves — absent metadata and for a name matching no name
heuristic — to the maximally conservative record: not sortable, not
filterable, not searchable, not editable; and resolution never drops a
field: the resolved field list always carries exactly the schema's keys. -/
theorem claim_C7_unknown_degrades (key : String) (schema : ZodSchema)
    (hbt : isRecognizedTypeTag (getZodBaseType schema.node) = false)
    (hmeta : schema.meta = none)
    (h1 : testIdPatterns key = false) (h1b : testIdSuffixPatterns key = false)
    (hc : testCreatedPatterns key = false) (hu : testUpdatedPatterns key = false)
    (hdel : testDeletedPatterns key = false) (hsec : testSecretPatterns key = false)
    (he : testEmailPatterns key = false) (hn : testNamePatterns key = false)
    (hds : testDescriptionPatterns key = false) (him : testImagePatterns key = false)
    (hst : testStatusPatterns key = false) :
    ((inferFieldAffordances key schema).sortable = some (SortableVal.ofBool false) ∧
     (inferFieldAffordances key schema).filterable = some (FilterVal.ofBool false) ∧
     (inferFieldAffordances key schema).searchable = some false ∧
     (inferFieldAffordances key schema).editable = some false) ∧
    getZodBaseType ZodNode.noDef = "unknown" ∧
    (∀ (shape : List (String × ZodSchema))
       (explicit : Option (List (String × FieldAffordance))),
      (resolveAllFieldAffordances shape explicit).map Prod.fst = shape.map Prod.fst) := by
  refine ⟨?_, rfl, ?_⟩
  · unfold inferFieldAffordances
    rw [getZodMeta, hmeta]
    simp only [applyMetaLayer]
    rw [getTypeDefaults_unrecognized _ hbt, refineByValidations_unrecognized schema _ hbt,
      refineByFieldName_noMatch key _ h1 h1b hc hu hdel hsec he hn hds him hst]
    refine ⟨?_, ?_, ?_, ?_⟩
    · rw [(fillTitle_frame key _).2.2.2.2]
      rfl
    · rw [(fillTitle_frame key _).2.1]
      rfl
    · rw [(fillTitle_frame key _).2.2.1]
      rfl
    · rw [(fillTitle_frame key _).1]
      rfl
  · intro shape explicit
    unfold resolveAllFieldAffordances
    rw [List.map_map]
    exact List.map_congr_left (fun kv _ => rfl)

/-- C7 witness: the amended theorem applied to a heuristic-free field name
over a node with an unrecognized type tag. -/
theorem claim_C7_witness :
    ((inferFieldAffordances "payload" { node := .base { ty := some "blob" }, meta := none
      }).sortable = some (SortableVal.ofBool false) ∧
     (inferFieldAffordances "payload" { node := .base { ty := some "blob" }, meta := none
      }).filterable = some (FilterVal.ofBool false) ∧
     (inferFieldAffordances "payload" { node := .base { ty := some "blob" }, meta := none
      }).searchable = some false ∧
     (inferFieldAffordances "payload" { node := .base { ty := some "blob" }, meta := none
      }).editable = some false) ∧
    getZodBaseType ZodNode.noDef = "unknown" ∧
    (∀ (shape : List (String × ZodSchema))
       (explicit : Option (List (String × FieldAffordance))),
      (resolveAllFieldAffordances shape explicit).map Prod.fst = shape.map Prod.fst) :=
  claim_C7_unknown_degrades "payload" { node := .base { ty := some "blob" }, meta := none }
    (by decide) rfl (by decide) (by decide) (by decide) (by decide) (by decide) (by decide)
    (by decide) (by decide) (by decide) (by decide) (by decide)

/-- C5: `getNumericBounds` prefers a present (non-sentinel) instance-level
bound over any checks-derived bound, and with no instance-level bounds the
first check of each kind wins while later duplicates are ignored. -/
theorem claim_C5_numeric_bounds (schema : ZodNode) :
    (∀ v : Int, instMinValue (unwrapZodSchema schema) = some v → v ≠ -maxSafeInteger →
      (getNumericBounds schema).min = some v) ∧
    (∀ v : Int, instMaxValue (unwrapZodSchema schema) = some v → v ≠ maxSafeInteger →
      (getNumericBounds schema).max = some v) ∧
    (instMinValue (unwrapZodSchema schema) = none →
      instMaxValue (unwrapZodSchema schema) = none →
      (getNumericBounds schema).min
        = (((defChecks (unwrapZodSchema schema)).getD []).find?
            (fun c => c.kind == "min")).map ZodCheck.value ∧
      (getNumericBounds schema).max
        = (((defChecks (unwrapZodSchema schema)).getD []).find?
            (fun c => c.kind == "max")).map ZodCheck.value) := by
  refine ⟨?_, ?_, ?_⟩
  · intro v hv hne
    simp only [getNumericBounds]
    refine applyChecks_min_some _ _ v ?_
    rw [applyInstMax_min]
    simp [applyInstMin, hv, if_neg hne]
  · intro v hv hne
    simp only [getNumericBounds]
    refine applyChecks_max_some _ _ v ?_
    simp [applyInstMax, applyInstMin_max, hv, if_neg hne]
  · intro hmin hmax
    have hbase : (applyInstMax (instMaxValue (unwrapZodSchema schema))
        (applyInstMin (instMinValue (unwrapZodSchema schema)) {})) = ({} : Bounds) := by
      simp [applyInstMax, applyInstMin, hmin, hmax]
    simp only [getNumericBounds, hbase]
    rcases hcs : defChecks (unwrapZodSchema schema) with _ | cs
    · exact ⟨rfl, rfl⟩
    · exact ⟨foldl_bounds_min_none cs _ rfl, foldl_bounds_max_none cs _ rfl⟩

/-- C5 witness: instance-level precedence on a node that also carries a
min check, and first-check-wins on a node with duplicate checks only. -/
theorem claim_C5_witness :
    (getNumericBounds nodeWithInstMin).min = some 3 ∧
    (getNumericBounds nodeChecksOnly).min = some 7 ∧
    (getNumericBounds nodeChecksOnly).max = some 20 :=
  ⟨(claim_C5_numeric_bounds nodeWithInstMin).1 3 rfl (by decide),
   ((claim_C5_numeric_bounds nodeChecksOnly).2.2 rfl rfl).1.trans (by decide),
   ((claim_C5_numeric_bounds nodeChecksOnly).2.2 rfl rfl).2.trans (by decide)⟩

/-- Title synthesis always leaves a defined `title`. -/
theorem fillTitle_title_isSome (key : String) (a : FieldAffordance) :
    (fillTitle key a).title.isSome = true := by
  unfold fillTitle
  split
  · rfl
  · rename_i h
    rcases ha : a.title with _ | t
    · exact absurd (by rw [ha]; rfl) h
    · simp [ha]

/-- Inference always produces a defined `title`. -/
theorem infer_title_isSome (key : String) (s : ZodSchema) :
    (inferFieldAffordances key s).title.isSome = true :=
  fillTitle_title_isSome key _

/-- Re-setting a record's `title` to its own value is the identity. -/
theorem set_title_self (a : FieldAffordance) (t : String) (h : a.title = some t) :
    { a with title := some t } = a := by
  cases a
  simp_all

/-- With no explicit override map, each resolved entry is exactly the
inferred record (whose `title` is already set) plus the computed type
tag. -/
theorem resolveFieldEntry_no_overrides (kv : String × ZodSchema) :
    resolveFieldEntry none kv
      = (kv.1, { aff := inferFieldAffordances kv.1 kv.2,
                 zodType := getZodBaseType kv.2.node }) := by
  obtain ⟨t, ht⟩ := Option.isSome_iff_exists.mp (infer_title_isSome kv.1 kv.2)
  simp only [resolveFieldEntry]
  rw [show mergeFieldAffordance (inferFieldAffordances kv.1 kv.2)
        (((((none : Option (List (String × FieldAffordance))).getD []).find?
          (fun p => p.1 = kv.1)).map Prod.snd).getD {})
      = inferFieldAffordances kv.1 kv.2 from rfl]
  rw [ht]
  simp only [Option.getD_some]
  rw [set_title_self _ t ht]

/-- With no explicit override map, resolution is pure inference. -/
theorem resolveAll_no_overrides (shape : List (String × ZodSchema)) :
    resolveAllFieldAffordances shape none
      = shape.map (fun kv => (kv.1, { aff := inferFieldAffordances kv.1 kv.2,
                                      zodType := getZodBaseType kv.2.node })) := by
  unfold resolveAllFieldAffordances
  exact List.map_congr_left (fun kv _ => resolveFieldEntry_no_overrides kv)

/-- Diffing a record against itself emits no properties. -/
theorem diffFieldProps_self (a : FieldAffordance) (t : String) (h : a.title = some t) :
    diffFieldProps a a t = [] := by
  unfold diffFieldProps
  refine List.filterMap_eq_nil_iff.mpr ?_
  intro prop _
  by_cases hp : prop = "title"
  · subst hp
    simp [getProp, h, valueEqual]
  · cases hg : getProp a prop with
    | none => simp [hg]
    | some r => simp [hg, hp, valueEqual]

/-- In a duplicate-free shape, `find?` on a member's key returns that very
entry. -/
theorem find_first_of_nodup (shape : List (String × ZodSchema))
    (hnd : (shape.map Prod.fst).Nodup) (k : String) (s : ZodSchema)
    (hmem : (k, s) ∈ shape) :
    shape.find? (fun p => p.1 = k) = some (k, s) := by
  induction shape with
  | nil => cases hmem
  | cons hd tl ih =>
    rw [List.map_cons, List.nodup_cons] at hnd
    rcases List.mem_cons.mp hmem with heq | htl
    · subst heq
      rw [List.find?_cons_of_pos _ (by simp)]
    · by_cases hk : hd.1 = k
      · exact absurd (hk ▸ List.mem_map.mpr ⟨(k, s), htl, rfl⟩) hnd.1
      · rw [List.find?_cons_of_neg _ (by simp [hk])]
        exact ih hnd.2 htl

/-- C3: for a collection built with no explicit per-field overrides (the
schema's keys being distinct, as object keys are), `diffOnly` serialization
emits no field-level override block: the generated config object has no
`fields` entry at all. -/
theorem claim_C3_diff_mode_no_fields (shape : List (String × ZodSchema))
    (config : Option CollectionConfig)
    (hnd : (shape.map Prod.fst).Nodup)
    (hf : config.bind (fun c => c.fields) = none) :
    (buildConfigObject (defineCollection shape config) true).fields = none := by
  have hfa : (defineCollection shape config).fieldAffordances
      = shape.map (fun kv => (kv.1, { aff := inferFieldAffordances kv.1 kv.2,
                                      zodType := getZodBaseType kv.2.node })) := by
    show resolveAllFieldAffordances shape (config.bind (fun c => c.fields)) = _
    rw [hf]
    exact resolveAll_no_overrides shape
  have hempty : buildFieldsObject (defineCollection shape config) true = [] := by
    unfold buildFieldsObject
    rw [hfa]
    refine List.filterMap_eq_nil_iff.mpr ?_
    intro kv hkv
    obtain ⟨⟨k, s⟩, hmem, rfl⟩ := List.mem_map.mp hkv
    show diffFieldEntry (defineCollection shape config).shape
      (k, { aff := inferFieldAffordances k s, zodType := getZodBaseType s.node }) = none
    obtain ⟨t, ht⟩ := Option.isSome_iff_exists.mp (infer_title_isSome k s)
    unfold diffFieldEntry
    rw [show (defineCollection shape config).shape = shape from rfl,
      find_first_of_nodup shape hnd k s hmem]
    show (let inferred := inferFieldAffordances k s
          let inferredTitle := inferred.title.getD (humanizeFieldName k)
          let props := diffFieldProps (inferFieldAffordances k s) inferred inferredTitle
          if props.isEmpty then none else some (k, props)) = none
    simp only []
    rw [ht]
    simp only [Option.getD_some]
    rw [diffFieldProps_self _ t ht]
    rfl
  simp [buildConfigObject, hempty]

/-- C3 witness: the diff-mode theorem applied to the concrete `{id, name}`
string schema with no config at all. -/
theorem claim_C3_witness :
    (buildConfigObject
      (defineCollection [("id", plainStringSchema), ("name", plainStringSchema)] none)
      true).fields = none :=
  claim_C3_diff_mode_no_fields [("id", plainStringSchema), ("name", plainStringSchema)]
    none (by decide) rfl

/-- C4 counterexample: an explicit `pagination: false` passes through the
normalization unchanged, so the resolved affordances do expose a bare
boolean (`false`) for pagination, contrary to the claim's "never expose a
bare boolean". -/
theorem claim_C4_counterexample :
    (resolveCollectionAffordances
      (some { pagination := some (.asBool false) })).pagination
      = some (PaginationSetting.asBool false) := by
  decide

/-- C4 (amended): the resolved collection affordances never expose a bare
`true` for `pagination` or `search` — `true` normalizes to the full default
config object and a partial config object merges property-by-property over
the full default, with `{defaultPageSize: 50}` resolving to the fully
populated record; a bare `false`, however, passes through unchanged. -/
theorem claim_C4_shorthand_normalization (e : Option CollectionAffordances) :
    (resolveCollectionAffordances e).pagination ≠ some (PaginationSetting.asBool true) ∧
    (resolveCollectionAffordances e).search ≠ some (SearchSetting.asBool true) ∧
    (∀ ca : CollectionAffordances, e = some ca →
      (ca.pagination = some (PaginationSetting.asBool true) →
        (resolveCollectionAffordances e).pagination
          = some (.asConfig DEFAULT_PAGINATION)) ∧
      (∀ c : PaginationConfig, ca.pagination = some (.asConfig c) →
        (resolveCollectionAffordances e).pagination
          = some (.asConfig (mergePaginationConfig DEFAULT_PAGINATION c))) ∧
      (ca.pagination = some (.asConfig { defaultPageSize := some 50 }) →
        (resolveCollectionAffordances e).pagination
          = some (.asConfig
              { defaultPageSize := some 50, pageSizeOptions := some [10, 25, 50, 100],
                style := some "pages", serverSide := some false })) ∧
      (ca.search = some (SearchSetting.asBool true) →
        (resolveCollectionAffordances e).search = some (.asConfig DEFAULT_SEARCH)) ∧
      (∀ c : SearchConfig, ca.search = some (.asConfig c) →
        (resolveCollectionAffordances e).search
          = some (.asConfig (mergeSearchConfig DEFAULT_SEARCH c)))) := by
  refine ⟨?_, ?_, ?_⟩
  · rcases e with _ | ca
    · decide
    · rw [resolve_pagination_char ca]
      rcases ca.pagination with _ | p
      · simp
      · rcases p with b | c
        · rcases b <;> simp
        · simp
  · rcases e with _ | ca
    · decide
    · rw [resolve_search_char ca]
      rcases ca.search with _ | s
      · simp
      · rcases s with b | c
        · rcases b <;> simp
        · simp
  · rintro ca rfl
    refine ⟨?_, ?_, ?_, ?_, ?_⟩
    · intro hp
      rw [resolve_pagination_char ca, hp]
    · intro c hp
      rw [resolve_pagination_char ca, hp]
    · intro hp
      rw [resolve_pagination_char ca, hp]
      rfl
    · intro hs
      rw [resolve_search_char ca, hs]
    · intro c hs
      rw [resolve_search_char ca, hs]

/-- C4 witness: a partial pagination override of `{defaultPageSize: 50}`
resolves to the fully populated pagination record, and `search: true`
resolves to the full default search config. -/
theorem claim_C4_witness :
    (resolveCollectionAffordances (some pageFiftyConfig)).pagination
      = some (.asConfig
          { defaultPageSize := some 50, pageSizeOptions := some [10, 25, 50, 100],
            style := some "pages", serverSide := some false }) ∧
    (resolveCollectionAffordances (some pageFiftyConfig)).search
      = some (.asConfig DEFAULT_SEARCH) :=
  ⟨((claim_C4_shorthand_normalization (some pageFiftyConfig)).2.2 pageFiftyConfig
      rfl).2.2.1 rfl,
   ((claim_C4_shorthand_normalization (some pageFiftyConfig)).2.2 pageFiftyConfig
      rfl).2.2.2.1 rfl⟩

/-- C6: the enum field named `status` with members
`['draft', 'active', 'archived']` resolves groupable and select-filterable,
and `toFilterConfig` emits one entry for it whose options are the members
in declaration order with first-letter-capitalized labels. -/
theorem claim_C6_status_filter_config :
    (inferFieldAffordances "status" statusEnumSchema).groupable = some true ∧
    (inferFieldAffordances "status" statusEnumSchema).filterable = some FilterVal.select ∧
    toFilterConfig statusCollection =
      [{ name := "status", label := "Status", filterType := "select",
         options := some [("Draft", "draft"), ("Active", "active"), ("Archived", "archived")],
         bounds := none, zodType := "enum" }] := by
  refine ⟨?_, ?_, ?_⟩ <;> decide

/-- C8: the store factory's initial column-visibility map is exactly
`buildInitialVisibility`; no key is ever present with value `true`, and a
key is present (with value `false`) precisely when its resolved affordance
is not visible or explicitly hidden. -/
theorem claim_C8_hidden_columns (coll : CollectionDefinition) :
    (createCollectionStore Nat coll).initialState.columnVisibility
      = buildInitialVisibility coll ∧
    (∀ k : String, (k, true) ∉ buildInitialVisibility coll) ∧
    (∀ k : String, (k, false) ∈ buildInitialVisibility coll ↔
      ∃ fa : ResolvedFA, (k, fa) ∈ coll.fieldAffordances ∧
        (fa.aff.visible = some false ∨ fa.aff.hidden = some true)) := by
  refine ⟨rfl, ?_, ?_⟩
  · intro k hk
    simp only [buildInitialVisibility, List.mem_filterMap] at hk
    obtain ⟨⟨k2, fa⟩, _, hkv⟩ := hk
    by_cases hcond : fa.aff.visible = some false ∨ fa.aff.hidden = some true
    · rw [if_pos hcond] at hkv
      exact Bool.false_ne_true (congrArg Prod.snd (Option.some.inj hkv))
    · rw [if_neg hcond] at hkv
      exact Option.noConfusion hkv
  · intro k
    simp only [buildInitialVisibility, List.mem_filterMap]
    constructor
    · rintro ⟨⟨k2, fa⟩, hmem, hkv⟩
      by_cases hcond : fa.aff.visible = some false ∨ fa.aff.hidden = some true
      · rw [if_pos hcond] at hkv
        have hk2 : k2 = k := congrArg Prod.fst (Option.some.inj hkv)
        exact ⟨fa, hk2 ▸ hmem, hcond⟩
      · rw [if_neg hcond] at hkv
        exact Option.noConfusion hkv
    · rintro ⟨fa, hmem, hcond⟩
      exact ⟨(k, fa), hmem, by rw [if_pos hcond]⟩

/-- C8 witness: the hidden-column theorem applied to the concrete
`{id, name}` collection and the visible field `name`. -/
theorem claim_C8_witness :
    (createCollectionStore Nat demoCollection).initialState.columnVisibility
      = buildInitialVisibility demoCollection ∧
    ("name", true) ∉ buildInitialVisibility demoCollection :=
  ⟨(claim_C8_hidden_columns demoCollection).1,
   (claim_C8_hidden_columns demoCollection).2.1 "name"⟩

/-- C10 counterexample: `setPagination` is a setter action other than
`setColumnFilters`/`setGlobalFilter` and it does modify the pagination
sub-record, contrary to the claim's "no other setter action modifies the
pagination sub-record". -/
theorem claim_C10_counterexample :
    (setPagination sampleState { pageIndex := 3, pageSize := 50 }).pagination
      ≠ sampleState.pagination := by
  decide

/-- C10 (amended): `setColumnFilters` and `setGlobalFilter` always reset
`pageIndex` to 0 and keep `pageSize`; among the remaining setters only
`setPagination` modifies the pagination sub-record (replacing it with its
argument) — every other setter leaves it untouched. -/
theorem claim_C10_pagination_frame {T : Type} (state : CollectionState T)
    (filters : List ColumnFilter) (g : String) (p : PaginationState) (items : List T)
    (total : Option Int) (sorting : List SortingState) (sel vis : List (String × Bool))
    (ord grp : List String) (b : Bool) (err : Option String) :
    (setColumnFilters state filters).pagination
      = { pageIndex := 0, pageSize := state.pagination.pageSize } ∧
    (setGlobalFilter state g).pagination
      = { pageIndex := 0, pageSize := state.pagination.pageSize } ∧
    (setPagination state p).pagination = p ∧
    (setItems state items total).pagination = state.pagination ∧
    (setSorting state sorting).pagination = state.pagination ∧
    (setRowSelection state sel).pagination = state.pagination ∧
    (setColumnVisibility state vis).pagination = state.pagination ∧
    (setColumnOrder state ord).pagination = state.pagination ∧
    (setGrouping state grp).pagination = state.pagination ∧
    (setLoading state b).pagination = state.pagination ∧
    (setError state err).pagination = state.pagination :=
  ⟨rfl, rfl, rfl, rfl, rfl, rfl, rfl, rfl, rfl, rfl, rfl⟩

end ZodUI
